import Mathlib

set_option linter.unusedVariables false

/-!
Verification of the remote-display synchronization engine
(ROOT::Experimental::TCanvasPainter, file TCanvasPainter.cxx).

The engine state and every operation the claims touch are embedded as
executable Lean definitions translated line by line from the C++ source.
Strings are modelled as lists of characters so that message-tag dispatch
is fully computable.  External collaborators (the TWebWindow channel
manager, the snapshot producer, base64/file output, the drawable
registry of the canvas) are modelled as a per-tick oracle record `Env`;
their observable effects are recorded as events in a trace.
-/

/-- Message and payload strings, modelled as lists of characters. -/
abbrev Str := List Char

/-- Oracle for the external collaborators consulted during one engine
step: TWebWindow::CanSend, TWebWindow::IsShown, TWebWindow::MakeBatch,
TWebWindow::RelativeAddr, the set of drawable ids of the canvas
(RCanvas::FindDrawable), RMenuItems::ProduceJSON and the JSON text the
snapshot producer (CreateSnapshot painting pass) would return. -/
structure Env where
  canSend : Nat → Bool
  shown : Bool
  makeBatch : Nat
  relAddr : Str
  drawables : List Str
  menuJson : Str
  snapshotData : Str

/-- Connection record, struct WebConn of TCanvasPainter. -/
structure WebConn where
  fConnId : Nat
  fDrawReady : Bool
  fGetMenu : Str
  fSend : Nat
  fDelivered : Nat
  deriving DecidableEq, Repr

/-- Command record, struct WebCommand of TCanvasPainter.  The C++
callback function pointer is modelled by the flag `fCallback`
(true iff a callback is attached and not yet fired/cleared). -/
structure WebCommand where
  fId : Str
  fName : Str
  fArg : Str
  fRunning : Bool
  fReady : Bool
  fResult : Bool
  fCallback : Bool
  fConnId : Nat
  deriving DecidableEq, Repr

/-- Pending update record, struct WebUpdate of TCanvasPainter.  `uid` is
a ghost identity (not present in the C++) used only to track callback
firings per entry in the event trace. -/
structure WebUpdate where
  uid : Nat
  fVersion : Nat
  fCallback : Bool
  deriving DecidableEq, Repr

/-- The mutable state of one TCanvasPainter instance.  `fWindow` models
whether the TWebWindow was created (non-null pointer); `uidNext` is the
ghost counter backing WebUpdate.uid. -/
structure TCanvasPainter where
  fWindow : Bool
  fWebConn : List WebConn
  fHadWebConn : Bool
  fCmds : List WebCommand
  fCmdsCnt : Nat
  fSnapshotVersion : Nat
  fSnapshot : Str
  fSnapshotDelivered : Nat
  fUpdatesLst : List WebUpdate
  fNextDumpName : Str
  uidNext : Nat
  deriving DecidableEq, Repr

/-- Observable effects of a step: outgoing channel sends, command and
update callback invocations, command/update creations (ghost markers),
direct caller-callback invocations (callbacks fired without ever being
stored in a queue entry), file writes (the Str carried is the base64
body whose decoded bytes are written externally), logging, and the
forwarded terminate/interrupt requests. -/
inductive Ev where
  | send (connid : Nat) (payload : Str)
  | cmdNew (id : Str) (armed : Bool)
  | cmdCb (id : Str) (res : Bool)
  | cmdDone (c : WebCommand)
  | updNew (uid : Nat) (ver : Nat)
  | updCb (uid : Nat) (res : Bool)
  | reqCb (res : Bool)
  | fileWrite (path : Str) (base64 : Str)
  | fileSave (path : Str) (base64 : Str)
  | jsonDump (path : Str)
  | execDrawable (id : Str) (instr : Str)
  | errorMsg (msg : Str)
  | infoMsg (msg : Str)
  | terminate
  | interrupt
  deriving DecidableEq, Repr

/-- Uint64 cast of std::stoll applied to a digit string, as used for the
SNAPDONE payload.  (std::stoll raises on a payload with no leading
digits; the claims only exercise plain digit payloads.) -/
def stollVerAux : Nat → Str → Nat
  | acc, [] => acc
  | acc, c :: cs => if c.isDigit then stollVerAux (acc * 10 + (c.toNat - 48)) cs else acc

/-- Version number parsed from a SNAPDONE payload. -/
def stollVer (s : Str) : Nat := stollVerAux 0 s

/-- Split at the first colon, strchr style: none when no colon occurs,
otherwise the part before the first colon and the part after it. -/
def splitColon : Str → Option (Str × Str)
  | [] => none
  | c :: cs =>
      if c = ':' then some ([], cs)
      else (splitColon cs).map (fun p => (c :: p.1, p.2))

/-- TCanvasPainter::FindDrawable: strips an extra specifier after a
hash sign, then looks the id up in the canvas (the canvas itself is the
external list of drawable ids held in the oracle). -/
def FindDrawable (drawables : List Str) (id : Str) : Bool :=
  drawables.contains (id.takeWhile (fun c => c ≠ '#'))

/-- TCanvasPainter::CancelCommands on the command list: every command
matching the filter (all commands when connid = 0, else those bound to
connid) fires its callback with failure and is erased; the rest are
kept unchanged in order. -/
def CancelCommandsList (connid : Nat) : List WebCommand → List WebCommand × List Ev
  | [] => ([], [])
  | c :: cs =>
      let r := CancelCommandsList connid cs
      if connid = 0 ∨ c.fConnId = connid then
        (r.1, (if c.fCallback then [Ev.cmdCb c.fId false] else []) ++ r.2)
      else
        (c :: r.1, r.2)

/-- TCanvasPainter::CancelUpdates: resets fSnapshotDelivered to zero and
fires every pending update callback with failure, clearing the list.
(The C++ calls the raw fCallback field here, not WebUpdate::CallBack,
so the event is emitted for every entry.) -/
def CancelUpdates (s : TCanvasPainter) : TCanvasPainter × List Ev :=
  ({ s with fSnapshotDelivered := 0, fUpdatesLst := [] },
   s.fUpdatesLst.map (fun u => Ev.updCb u.uid false))

/-- The update-completion sweep at the end of CheckDataToSend: every
pending update whose target version is at or below the newly recorded
delivered version fires with success and is erased. -/
def FireDeliveredUpdates (d : Nat) : List WebUpdate → List WebUpdate × List Ev
  | [] => ([], [])
  | u :: us =>
      let r := FireDeliveredUpdates d us
      if u.fVersion ≤ d then
        (r.1, (if u.fCallback then [Ev.updCb u.uid true] else []) ++ r.2)
      else
        (u :: r.1, r.2)

/-- Eligibility of the queue head for dispatch on a connection:
head exists, is not already running, and is either unbound (connid 0)
or bound to this very connection. -/
def HeadEligible (conn : WebConn) : List WebCommand → Bool
  | [] => false
  | c :: _ => (!c.fRunning) && (c.fConnId == 0 || c.fConnId == conn.fConnId)

/-- Outgoing CMD message: CMD:<id>:<name>. -/
def CmdPayload (c : WebCommand) : Str := "CMD:".data ++ c.fId ++ ":".data ++ c.fName

/-- Outgoing MENU message: MENU:<target>:<json>. -/
def MenuPayload (target : Str) (json : Str) : Str :=
  "MENU:".data ++ target ++ ":".data ++ json

/-- Outgoing SNAP message: SNAP:<version>:<payload>. -/
def SnapPayload (ver : Nat) (snap : Str) : Str :=
  "SNAP:".data ++ (Nat.repr ver).data ++ ":".data ++ snap

/-- Body of the per-connection iteration of CheckDataToSend.  Updates
the running minimum-delivered accumulator, skips the connection when the
channel cannot accept data, otherwise picks at most one payload with the
source's priority: command dispatch, then menu reply (the pending menu
marker is cleared even when the drawable is not found, in which case no
payload is produced), then snapshot re-sync. -/
def VisitConn (env : Env) (snapVer : Nat) (snap : Str) (conn : WebConn)
    (cmds : List WebCommand) (minDel : Nat) :
    WebConn × List WebCommand × Nat × Option Str :=
  let minDel' := if conn.fDelivered ≠ 0 ∧ (minDel = 0 ∨ minDel < conn.fDelivered)
      then conn.fDelivered else minDel
  if !(env.canSend conn.fConnId) then
    (conn, cmds, minDel', none)
  else if conn.fDrawReady && HeadEligible conn cmds then
    match cmds with
    | c :: rest =>
        (conn, { c with fRunning := true, fConnId := conn.fConnId } :: rest, minDel',
         some (CmdPayload c))
    | [] => (conn, [], minDel', none)
  else if conn.fGetMenu ≠ [] then
    ({ conn with fGetMenu := [] }, cmds, minDel',
     if FindDrawable env.drawables conn.fGetMenu then
       some (MenuPayload conn.fGetMenu env.menuJson)
     else none)
  else if conn.fSend ≠ snapVer then
    ({ conn with fSend := snapVer }, cmds, minDel', some (SnapPayload snapVer snap))
  else
    (conn, cmds, minDel', none)

/-- The connection loop of CheckDataToSend, visiting connections in
insertion order and emitting a send event for each produced payload. -/
def PushLoop (env : Env) (snapVer : Nat) (snap : Str) :
    List WebConn → List WebCommand → Nat →
    List WebConn × List WebCommand × Nat × List Ev
  | [], cmds, minDel => ([], cmds, minDel, [])
  | conn :: rest, cmds, minDel =>
      let v := VisitConn env snapVer snap conn cmds minDel
      let r := PushLoop env snapVer snap rest v.2.1 v.2.2.1
      (v.1 :: r.1, r.2.1, r.2.2.1,
       (match v.2.2.2 with
        | some b => [Ev.send conn.fConnId b]
        | none => []) ++ r.2.2.2)

/-- TCanvasPainter::CheckDataToSend: runs the per-connection push loop,
then, if every connection disappeared while a delivered version was
recorded, cancels all pending updates; otherwise records the recomputed
delivered version and completes the pending updates it satisfies. -/
def CheckDataToSend (env : Env) (s : TCanvasPainter) : TCanvasPainter × List Ev :=
  let r := PushLoop env s.fSnapshotVersion s.fSnapshot s.fWebConn s.fCmds 0
  let s1 := { s with fWebConn := r.1, fCmds := r.2.1 }
  let minDel := r.2.2.1
  let evs := r.2.2.2
  if s1.fWebConn = [] ∧ s1.fSnapshotDelivered ≠ 0 then
    let c := CancelUpdates s1
    (c.1, evs ++ c.2)
  else if s1.fSnapshotDelivered ≠ minDel then
    let f := FireDeliveredUpdates minDel s1.fUpdatesLst
    ({ s1 with fSnapshotDelivered := minDel, fUpdatesLst := f.1 }, evs ++ f.2)
  else
    (s1, evs)

/-- TCanvasPainter::CheckDeliveredVersion, the WaitBridge predicate for
blocking updates: -1 when all connections vanished after at least one
existed, 1 when the requested version is delivered to all, 0 to keep
polling. -/
def CheckDeliveredVersion (s : TCanvasPainter) (ver : Nat) : Int :=
  if s.fWebConn = [] ∧ s.fHadWebConn then -1
  else if ver ≤ s.fSnapshotDelivered then 1
  else 0

/-- TCanvasPainter::CreateSnapshot: the painting/serialization pass is
external (its JSON text is the oracle's snapshotData); the side effect
kept here is the one-shot JSON dump to fNextDumpName. -/
def CreateSnapshot (env : Env) (s : TCanvasPainter) : TCanvasPainter × Str × List Ev :=
  if s.fNextDumpName ≠ [] then
    ({ s with fNextDumpName := [] }, env.snapshotData, [Ev.jsonDump s.fNextDumpName])
  else (s, env.snapshotData, [])

/-- TCanvasPainter::CanvasUpdated.  The fast path returns immediately
with success when the non-zero requested version is already delivered
to all; otherwise a fresh snapshot is produced and stored, a missing or
hidden window fails the callback immediately, and otherwise the push
pass runs and the callback (if any) is queued as a pending update.
The blocking WaitFor of the non-async variant only polls
CheckDeliveredVersion and mutates no engine state. -/
def CanvasUpdated (env : Env) (ver : Nat) (async : Bool) (hasCb : Bool)
    (s : TCanvasPainter) : TCanvasPainter × List Ev :=
  if ver ≠ 0 ∧ s.fSnapshotDelivered ≠ 0 ∧ ver ≤ s.fSnapshotDelivered then
    (s, if hasCb then [Ev.reqCb true] else [])
  else
    let c := CreateSnapshot env s
    let s1 := { c.1 with fSnapshotVersion := ver, fSnapshot := c.2.1 }
    if !s1.fWindow || !env.shown then
      (s1, c.2.2 ++ (if hasCb then [Ev.reqCb false] else []))
    else
      let d := CheckDataToSend env s1
      if hasCb then
        ({ d.1 with
            fUpdatesLst := d.1.fUpdatesLst ++ [⟨d.1.uidNext, ver, true⟩],
            uidNext := d.1.uidNext + 1 },
         c.2.2 ++ d.2 ++ [Ev.updNew d.1.uidNext ver])
      else (d.1, c.2.2 ++ d.2)

/-- TCanvasPainter::DoWhenReady.  The JSON pseudo-verb only records the
dump file name; otherwise the window is created, a batch connection is
requested from the channel manager (failure fires the caller callback
directly with false), and on success a fresh command is appended and
the push pass runs.  The blocking WaitFor of the non-async variant
polls command state and mutates no engine state. -/
def DoWhenReady (env : Env) (name arg : Str) (async : Bool) (hasCb : Bool)
    (s : TCanvasPainter) : TCanvasPainter × List Ev :=
  if name = "JSON".data then
    ({ s with fNextDumpName := arg }, [])
  else
    let s1 := { s with fWindow := true }
    let connid := env.makeBatch
    if connid = 0 then
      (s1, if hasCb then [Ev.reqCb false] else [])
    else
      let cnt := (s1.fCmdsCnt + 1) % (2 ^ 64)
      let cmd : WebCommand := ⟨(Nat.repr cnt).data, name, arg, false, false, false, hasCb, connid⟩
      let s2 := { s1 with fCmdsCnt := cnt, fCmds := s1.fCmds ++ [cmd] }
      let d := CheckDataToSend env s2
      (d.1, Ev.cmdNew cmd.fId hasCb :: d.2)

/-- TCanvasPainter::NewDisplay (window creation; Show is external). -/
def NewDisplay (s : TCanvasPainter) : TCanvasPainter := { s with fWindow := true }

/-- TCanvasPainter::AddPanel: refused without a shown window or a
relative address; otherwise submits the ADDPANEL command without a
callback through DoWhenReady in async mode. -/
def AddPanel (env : Env) (s : TCanvasPainter) : TCanvasPainter × List Ev × Bool :=
  if !s.fWindow then
    (s, [Ev.errorMsg "Canvas not yet shown in AddPanel".data], false)
  else if !env.shown then
    (s, [Ev.errorMsg "Canvas window was not shown to call AddPanel".data], false)
  else if env.relAddr = [] then
    (s, [Ev.errorMsg "Cannot attach panel to canvas".data], false)
  else
    let d := DoWhenReady env ("ADDPANEL:".data ++ env.relAddr) "AddPanel".data true false s
    (d.1, d.2, true)

/-- Image-export verbs of FrontCommandReplied. -/
def ImageVerb (name : Str) : Bool :=
  name == "SVG".data || name == "PNG".data || name == "JPEG".data

/-- Verb-specific decoding of a command reply body, the result grammar
of FrontCommandReplied: image verbs fail on an empty body and otherwise
write the base64-decoded body to the command's argument path; the
panel-attach verb succeeds exactly when the body is the literal token
true; unknown verbs fail with a log. -/
def ReplyDecode (cmd : WebCommand) (reply : Str) : Bool × List Ev :=
  if ImageVerb cmd.fName then
    (if reply = [] then (false, [Ev.errorMsg "Fail to produce image".data])
     else (true, [Ev.fileWrite cmd.fArg reply]))
  else if "ADDPANEL:".data.isPrefixOf cmd.fName then
    ((reply == "true".data), [])
  else
    (false, [Ev.errorMsg "Unknown command".data])

/-- TCanvasPainter::FrontCommandReplied: pops the head command, marks it
ready, decodes the verb-specific result, stores the result and fires
the callback with it.  The finished record (still alive through its
shared pointer in the C++) is emitted as a cmdDone event.  Only ever
called with a non-empty queue; the empty case, unreachable behind the
caller's guards, is the identity. -/
def FrontCommandReplied (reply : Str) (s : TCanvasPainter) : TCanvasPainter × List Ev :=
  match s.fCmds with
  | [] => (s, [])
  | cmd :: rest =>
      let r := ReplyDecode cmd reply
      let fin : WebCommand := { cmd with fReady := true, fResult := r.1, fCallback := false }
      ({ s with fCmds := rest },
       Ev.cmdDone fin :: r.2 ++ (if cmd.fCallback then [Ev.cmdCb cmd.fId r.1] else []))

/-- TCanvasPainter::SaveCreatedFile: splits filename and base64 body at
the first colon; a missing separator or an empty filename is an error,
otherwise the decoded body is persisted externally. -/
def SaveCreatedFile (cdata : Str) : List Ev :=
  match splitColon cdata with
  | none => [Ev.errorMsg "SaveCreatedFile does not found separator".data]
  | some p =>
      if p.1 = [] then [Ev.errorMsg "SaveCreatedFile does not found separator".data]
      else [Ev.fileSave p.1 p.2]

/-- The OBJEXEC branch of ProcessData: target id and instruction are
split at the first colon (needing a colon at a positive position); the
instruction is executed on a found drawable, the reserved canvas id is
a deliberate no-op, anything else is dropped. -/
def ObjExec (env : Env) (cdata : Str) : List Ev :=
  match splitColon cdata with
  | none => []
  | some p =>
      if p.1 = [] then []
      else if FindDrawable env.drawables p.1 = true ∧ p.2 ≠ [] then
        [Ev.execDrawable p.1 p.2]
      else if p.1 = "canvas".data then
        [Ev.infoMsg "execute for canvas itself ignored".data]
      else []

/-- In-place mutation of the first connection record with the given id
(ProcessData locates the record by scanning and breaks at the first
match). -/
def UpdateConnFirst (connid : Nat) (f : WebConn → WebConn) : List WebConn → List WebConn
  | [] => []
  | c :: cs => if c.fConnId = connid then f c :: cs else c :: UpdateConnFirst connid f cs

/-- Erasure of the first connection record with the given id. -/
def EraseConnFirst (connid : Nat) : List WebConn → List WebConn
  | [] => []
  | c :: cs => if c.fConnId = connid then cs else c :: EraseConnFirst connid cs

/-- TCanvasPainter::ProcessData, the inbound message dispatcher.
CONN_READY registers the connection and sets the sticky had-connection
flag; any other message from an unregistered connection id returns
immediately with no effect at all.  Every recognized or unrecognized
branch except QUIT concludes by re-running the push pass. -/
def ProcessData (env : Env) (connid : Nat) (arg : Str) (s : TCanvasPainter) :
    TCanvasPainter × List Ev :=
  if arg = "CONN_READY".data then
    CheckDataToSend env
      { s with fWebConn := s.fWebConn ++ [⟨connid, false, [], 0, 0⟩], fHadWebConn := true }
  else if (s.fWebConn.find? (fun c => c.fConnId == connid)).isNone then
    (s, [])
  else if arg = "CONN_CLOSED".data then
    let cc := CancelCommandsList connid s.fCmds
    let d := CheckDataToSend env
      { s with fWebConn := EraseConnFirst connid s.fWebConn, fCmds := cc.1 }
    (d.1, cc.2 ++ d.2)
  else if "READY".data.isPrefixOf arg then
    CheckDataToSend env s
  else if "SNAPDONE:".data.isPrefixOf arg then
    CheckDataToSend env
      { s with fWebConn := (UpdateConnFirst connid
          (fun c => { c with fDrawReady := true, fDelivered := stollVer (arg.drop 9) })
          s.fWebConn) }
  else if "RREADY:".data.isPrefixOf arg then
    CheckDataToSend env
      { s with fWebConn := (UpdateConnFirst connid
          (fun c => { c with fDrawReady := true }) s.fWebConn) }
  else if "GETMENU:".data.isPrefixOf arg then
    CheckDataToSend env
      { s with fWebConn := (UpdateConnFirst connid
          (fun c => { c with fGetMenu := arg.drop 8 }) s.fWebConn) }
  else if arg = "QUIT".data then
    (s, [Ev.terminate])
  else if arg = "RELOAD".data then
    CheckDataToSend env
      { s with fWebConn := (UpdateConnFirst connid
          (fun c => { c with fSend := 0 }) s.fWebConn) }
  else if arg = "INTERRUPT".data then
    let d := CheckDataToSend env s
    (d.1, Ev.interrupt :: d.2)
  else if "REPLY:".data.isPrefixOf arg then
    let cdata := arg.drop 6
    let id := match splitColon cdata with
      | some p => p.1
      | none => []
    match s.fCmds with
    | [] =>
        let d := CheckDataToSend env s
        (d.1, Ev.errorMsg "Get REPLY without command".data :: d.2)
    | cmd :: _ =>
        if !cmd.fRunning then
          let d := CheckDataToSend env s
          (d.1, Ev.errorMsg "Front command is not running when get reply".data :: d.2)
        else if cmd.fId ≠ id then
          let d := CheckDataToSend env s
          (d.1, Ev.errorMsg "Mismatch with front command and ID in REPLY".data :: d.2)
        else
          let payload := match splitColon cdata with
            | some p => p.2
            | none => []
          let f := FrontCommandReplied payload s
          let d := CheckDataToSend env f.1
          (d.1, f.2 ++ d.2)
  else if "SAVE:".data.isPrefixOf arg then
    let d := CheckDataToSend env s
    (d.1, SaveCreatedFile (arg.drop 5) ++ d.2)
  else if "OBJEXEC:".data.isPrefixOf arg then
    let d := CheckDataToSend env s
    (d.1, ObjExec env (arg.drop 8) ++ d.2)
  else
    let d := CheckDataToSend env s
    (d.1, Ev.errorMsg "Got not recognized reply".data :: d.2)

/-- The destructor of TCanvasPainter: cancels every queued command and
every pending update with failure before releasing the window. -/
def DestroyPainter (s : TCanvasPainter) : TCanvasPainter × List Ev :=
  let cc := CancelCommandsList 0 s.fCmds
  let cu := CancelUpdates { s with fCmds := cc.1 }
  (cu.1, cc.2 ++ cu.2)

/-- One caller- or channel-driven step of the engine.  The environment
oracle is supplied per step. -/
inductive PInput where
  | msg (env : Env) (connid : Nat) (arg : Str)
  | update (env : Env) (ver : Nat) (async : Bool) (hasCb : Bool)
  | command (env : Env) (name arg : Str) (async : Bool) (hasCb : Bool)
  | panel (env : Env)
  | display
  | destroy

/-- Dispatch of one step. -/
def step (s : TCanvasPainter) : PInput → TCanvasPainter × List Ev
  | .msg env connid arg => ProcessData env connid arg s
  | .update env ver async hasCb => CanvasUpdated env ver async hasCb s
  | .command env name arg async hasCb => DoWhenReady env name arg async hasCb s
  | .panel env =>
      let r := AddPanel env s
      (r.1, r.2.1)
  | .display => (NewDisplay s, [])
  | .destroy => DestroyPainter s

/-- A whole execution: the final state and the concatenated event
trace. -/
def run : TCanvasPainter → List PInput → TCanvasPainter × List Ev
  | s, [] => (s, [])
  | s, i :: is =>
      let r := step s i
      let r2 := run r.1 is
      (r2.1, r.2 ++ r2.2)

/-- The freshly constructed painter: no window, no connections, empty
queues, version counters at zero. -/
def pInit : TCanvasPainter := ⟨false, [], false, [], 0, 0, [], 0, [], [], 0⟩

/-- Environment with a channel that cannot accept data (CanSend false)
and a shown window. -/
def envNoSend : Env := ⟨fun _ => false, true, 0, [], [], [], "S".data⟩

/-- Environment with an accepting channel and a shown window. -/
def envSend : Env := ⟨fun _ => true, true, 0, [], [], [], "S".data⟩

/-- Accepting channel, shown window, batch connections get id 1. -/
def envSendBatch1 : Env := ⟨fun _ => true, true, 1, [], [], [], "S".data⟩

/-- Non-accepting channel, shown window, batch connections get id 1. -/
def envNoSendBatch1 : Env := ⟨fun _ => false, true, 1, [], [], [], "S".data⟩

/-- Environment whose window is not shown. -/
def envHidden : Env := ⟨fun _ => false, false, 0, [], [], [], "S".data⟩

/-- Scenario of claim C1 (spec Scenario D): two viewers connect, one
acknowledges version 3, the other version 2. -/
def c1Inputs : List PInput :=
  [.msg envNoSend 1 "CONN_READY".data, .msg envNoSend 2 "CONN_READY".data,
   .msg envNoSend 1 "SNAPDONE:3".data, .msg envNoSend 2 "SNAPDONE:2".data]

/-- Scenario of claim C6: a viewer connects, an update with a callback
is submitted (nothing is ever acknowledged), then the only viewer
disconnects. -/
def c6Inputs : List PInput :=
  [.display, .msg envNoSend 7 "CONN_READY".data, .update envNoSend 1 true true,
   .msg envNoSend 7 "CONN_CLOSED".data]

/-- Prefix of the claim C4 counterexample: a viewer connects and
reports draw readiness while the channel is saturated, and an SVG
export command is submitted, so the command stays queued and not
running. -/
def c4Prefix : List PInput :=
  [.display, .msg envNoSend 1 "CONN_READY".data, .msg envNoSend 1 "RREADY:".data,
   .command envNoSendBatch1 "SVG".data "f.svg".data true true]

/-- Prefix of the claim C7 counterexample: a viewer connects while the
channel is saturated and requests the context menu of a drawable id
that does not exist in the canvas. -/
def c7Prefix : List PInput :=
  [.display, .msg envNoSend 1 "CONN_READY".data, .msg envNoSend 1 "GETMENU:x".data]

/-- Number of creations of an armed command callback with the given id
in a trace. -/
def cmdNewCount (id : Str) : List Ev → Nat
  | [] => 0
  | Ev.cmdNew i a :: t => (if i = id ∧ a = true then 1 else 0) + cmdNewCount id t
  | _ :: t => cmdNewCount id t

/-- Number of firings of the command callback with the given id in a
trace. -/
def cmdCbCount (id : Str) : List Ev → Nat
  | [] => 0
  | Ev.cmdCb i _ :: t => (if i = id then 1 else 0) + cmdCbCount id t
  | _ :: t => cmdCbCount id t

/-- Number of creations of the pending update with the given ghost
identity in a trace. -/
def updNewCount (k : Nat) : List Ev → Nat
  | [] => 0
  | Ev.updNew i _ :: t => (if i = k then 1 else 0) + updNewCount k t
  | _ :: t => updNewCount k t

/-- Number of firings of the pending-update callback with the given
ghost identity in a trace. -/
def updCbCount (k : Nat) : List Ev → Nat
  | [] => 0
  | Ev.updCb i _ :: t => (if i = k then 1 else 0) + updCbCount k t
  | _ :: t => updCbCount k t

/-- Number of live queue entries holding the armed callback of the
command with the given id. -/
def liveCmd (id : Str) : List WebCommand → Nat
  | [] => 0
  | c :: cs => (if c.fId = id ∧ c.fCallback = true then 1 else 0) + liveCmd id cs

/-- Number of live pending-update entries with the given ghost
identity. -/
def liveUpd (k : Nat) : List WebUpdate → Nat
  | [] => 0
  | u :: us => (if u.uid = k then 1 else 0) + liveUpd k us

/-- Every pending update in the list still holds its callback (the
source only ever queues an update together with a non-null callback
and erases an entry in the same breath as firing it). -/
def updatesArmed (us : List WebUpdate) : Prop := ∀ u ∈ us, u.fCallback = true

/-- Callback accounting: each armed command creation is balanced by a
fired callback or a live armed queue entry, and likewise for pending
updates. -/
def CbBalanced (s : TCanvasPainter) (t : List Ev) : Prop :=
  (∀ id, cmdNewCount id t = cmdCbCount id t + liveCmd id s.fCmds) ∧
  (∀ k, updNewCount k t = updCbCount k t + liveUpd k s.fUpdatesLst) ∧
  updatesArmed s.fUpdatesLst

/-- Single-flight shape of the command queue: no command behind the
head is ever running. -/
def tailNotRunning (cs : List WebCommand) : Prop :=
  ∀ c ∈ cs.drop 1, c.fRunning = false

/-- Events that take part in the callback accounting. -/
def countedEv : Ev → Bool
  | Ev.cmdNew _ _ => true
  | Ev.cmdCb _ _ => true
  | Ev.updNew _ _ => true
  | Ev.updCb _ _ => true
  | _ => false

/-- While no viewer has ever connected there is no connection record
and no delivered version. -/
def NoViewerYet (s : TCanvasPainter) : Prop :=
  s.fHadWebConn = false → s.fWebConn = [] ∧ s.fSnapshotDelivered = 0

/-- The SVG export command submitted by the c4Prefix scenario: queued,
not yet running, bound to connection 1, callback armed. -/
def c4Cmd : WebCommand := ⟨"1".data, "SVG".data, "f.svg".data, false, false, false, true, 1⟩

/-- A PNG export command at the queue head, running, callback armed. -/
def c9Cmd : WebCommand := ⟨"1".data, "PNG".data, "out.png".data, true, false, false, true, 1⟩

/-- Painter state whose queue holds exactly the running PNG command. -/
def c9State : TCanvasPainter := { pInit with fCmds := [c9Cmd] }

/-- Painter state with delivered-to-all version 3. -/
def c3State : TCanvasPainter := { pInit with fSnapshotDelivered := 3 }

/-- A connection that has not completed its first render and has a
pending menu request for the drawable id x. -/
def c7Conn : WebConn := ⟨1, false, "x".data, 0, 0⟩

theorem cmdNewCount_append (id : Str) (a b : List Ev) :
    cmdNewCount id (a ++ b) = cmdNewCount id a + cmdNewCount id b := by
  induction a with
  | nil => simp [cmdNewCount]
  | cons e t ih => cases e <;> simp [cmdNewCount, ih] <;> omega

theorem cmdCbCount_append (id : Str) (a b : List Ev) :
    cmdCbCount id (a ++ b) = cmdCbCount id a + cmdCbCount id b := by
  induction a with
  | nil => simp [cmdCbCount]
  | cons e t ih => cases e <;> simp [cmdCbCount, ih] <;> omega

theorem updNewCount_append (k : Nat) (a b : List Ev) :
    updNewCount k (a ++ b) = updNewCount k a + updNewCount k b := by
  induction a with
  | nil => simp [updNewCount]
  | cons e t ih => cases e <;> simp [updNewCount, ih] <;> omega

theorem updCbCount_append (k : Nat) (a b : List Ev) :
    updCbCount k (a ++ b) = updCbCount k a + updCbCount k b := by
  induction a with
  | nil => simp [updCbCount]
  | cons e t ih => cases e <;> simp [updCbCount, ih] <;> omega

theorem cancel_evs_shape (connid : Nat) (cs : List WebCommand) :
    ∀ e ∈ (CancelCommandsList connid cs).2, ∃ i, e = Ev.cmdCb i false := by
  induction cs with
  | nil => intro e he; simp [CancelCommandsList] at he
  | cons c cs ih =>
      intro e he
      simp only [CancelCommandsList] at he
      by_cases hm : connid = 0 ∨ c.fConnId = connid
      · rw [if_pos hm] at he
        simp only [List.mem_append] at he
        rcases he with he | he
        · by_cases hc : c.fCallback = true
          · rw [hc] at he; simp at he; exact ⟨c.fId, he⟩
          · simp only [Bool.not_eq_true] at hc; rw [hc] at he; simp at he
        · exact ih e he
      · rw [if_neg hm] at he
        exact ih e he

theorem cancel_balance (connid : Nat) (cs : List WebCommand) (id : Str) :
    cmdCbCount id (CancelCommandsList connid cs).2 +
      liveCmd id (CancelCommandsList connid cs).1 = liveCmd id cs := by
  induction cs with
  | nil => simp [CancelCommandsList, cmdCbCount, liveCmd]
  | cons c cs ih =>
      simp only [CancelCommandsList]
      by_cases hm : connid = 0 ∨ c.fConnId = connid
      · rw [if_pos hm]
        by_cases hc : c.fCallback = true
        · simp only [hc, if_true, List.singleton_append, cmdCbCount, liveCmd]
          by_cases hid : c.fId = id <;> simp [hid, hc] <;> omega
        · simp only [Bool.not_eq_true] at hc
          simp only [hc, Bool.false_eq_true, if_false, List.nil_append, liveCmd]
          by_cases hid : c.fId = id <;> simp [hid, hc] <;> omega
      · rw [if_neg hm]
        simp only [liveCmd]
        omega

theorem cancel_mem (connid : Nat) (cs : List WebCommand) :
    ∀ c ∈ (CancelCommandsList connid cs).1, c ∈ cs := by
  induction cs with
  | nil => simp [CancelCommandsList]
  | cons c cs ih =>
      intro x hx
      simp only [CancelCommandsList] at hx
      by_cases hm : connid = 0 ∨ c.fConnId = connid
      · rw [if_pos hm] at hx
        exact List.mem_cons_of_mem c (ih x hx)
      · rw [if_neg hm] at hx
        rcases List.mem_cons.mp hx with h | h
        · exact h ▸ List.mem_cons_self c cs
        · exact List.mem_cons_of_mem c (ih x h)

theorem cancel_all_empty (cs : List WebCommand) :
    (CancelCommandsList 0 cs).1 = [] := by
  induction cs with
  | nil => simp [CancelCommandsList]
  | cons c cs ih => simp [CancelCommandsList, ih]

theorem cancel_tailNotRunning (connid : Nat) (cs : List WebCommand)
    (h : tailNotRunning cs) : tailNotRunning (CancelCommandsList connid cs).1 := by
  cases cs with
  | nil => simp [CancelCommandsList, tailNotRunning]
  | cons c cs =>
      have hall : ∀ x ∈ cs, x.fRunning = false := by
        intro x hx
        exact h x (by simpa using hx)
      simp only [CancelCommandsList]
      by_cases hm : connid = 0 ∨ c.fConnId = connid
      · rw [if_pos hm]
        intro x hx
        exact hall x (cancel_mem connid cs x (List.mem_of_mem_drop hx))
      · rw [if_neg hm]
        intro x hx
        simp only [List.drop_one, List.tail_cons] at hx
        exact hall x (cancel_mem connid cs x hx)

theorem cancelUpdates_counts (s : TCanvasPainter) (k : Nat) :
    updCbCount k (CancelUpdates s).2 = liveUpd k s.fUpdatesLst := by
  simp only [CancelUpdates]
  induction s.fUpdatesLst with
  | nil => simp [updCbCount, liveUpd]
  | cons u us ih => by_cases hu : u.uid = k <;> simp [updCbCount, liveUpd, hu, ih]

theorem cancelUpdates_shape (s : TCanvasPainter) :
    ∀ e ∈ (CancelUpdates s).2, ∃ i, e = Ev.updCb i false := by
  simp only [CancelUpdates]
  intro e he
  obtain ⟨u, _, rfl⟩ := List.mem_map.mp he
  exact ⟨u.uid, rfl⟩

theorem fire_balance (d : Nat) (us : List WebUpdate) (k : Nat)
    (h : updatesArmed us) :
    updCbCount k (FireDeliveredUpdates d us).2 +
      liveUpd k (FireDeliveredUpdates d us).1 = liveUpd k us := by
  induction us with
  | nil => simp [FireDeliveredUpdates, updCbCount, liveUpd]
  | cons u us ih =>
      have harm : u.fCallback = true := h u (List.mem_cons_self u us)
      have htail : updatesArmed us := fun x hx => h x (List.mem_cons_of_mem u hx)
      simp only [FireDeliveredUpdates]
      by_cases hv : u.fVersion ≤ d
      · rw [if_pos hv]
        have ihh := ih htail
        simp only [harm, if_true, List.singleton_append, updCbCount, liveUpd]
        by_cases hu : u.uid = k <;> simp [hu] <;> omega
      · rw [if_neg hv]
        simp only [liveUpd, updCbCount]
        have := ih htail
        omega

theorem fire_armed (d : Nat) (us : List WebUpdate) (h : updatesArmed us) :
    updatesArmed (FireDeliveredUpdates d us).1 := by
  induction us with
  | nil => simpa [FireDeliveredUpdates] using h
  | cons u us ih =>
      have htail : updatesArmed us := fun x hx => h x (List.mem_cons_of_mem u hx)
      simp only [FireDeliveredUpdates]
      by_cases hv : u.fVersion ≤ d
      · rw [if_pos hv]
        exact ih htail
      · rw [if_neg hv]
        intro x hx
        rcases List.mem_cons.mp hx with rfl | hx
        · exact h x (List.mem_cons_self x us)
        · exact ih htail x hx

theorem fire_shape (d : Nat) (us : List WebUpdate) :
    ∀ e ∈ (FireDeliveredUpdates d us).2, ∃ i, e = Ev.updCb i true := by
  induction us with
  | nil => simp [FireDeliveredUpdates]
  | cons u us ih =>
      intro e he
      simp only [FireDeliveredUpdates] at he
      by_cases hv : u.fVersion ≤ d
      · rw [if_pos hv] at he
        simp only [List.mem_append] at he
        rcases he with he | he
        · by_cases hc : u.fCallback = true
          · rw [hc] at he; simp at he; exact ⟨u.uid, he⟩
          · simp only [Bool.not_eq_true] at hc; rw [hc] at he; simp at he
        · exact ih e he
      · rw [if_neg hv] at he
        exact ih e he

theorem visitConn_cmds_shape (env : Env) (v : Nat) (sn : Str) (conn : WebConn)
    (cmds : List WebCommand) (m : Nat) :
    (VisitConn env v sn conn cmds m).2.1 = cmds ∨
    ∃ c rest, cmds = c :: rest ∧
      (VisitConn env v sn conn cmds m).2.1 =
        { c with fRunning := true, fConnId := conn.fConnId } :: rest := by
  simp only [VisitConn]
  by_cases h1 : env.canSend conn.fConnId
  · simp only [h1, Bool.not_true, Bool.false_eq_true, if_false]
    by_cases h2 : (conn.fDrawReady && HeadEligible conn cmds) = true
    · rw [if_pos h2]
      cases cmds with
      | nil => left; rfl
      | cons c rest => right; exact ⟨c, rest, rfl, rfl⟩
    · rw [if_neg h2]
      by_cases h3 : conn.fGetMenu ≠ []
      · rw [if_pos h3]; left; rfl
      · rw [if_neg h3]
        by_cases h4 : conn.fSend ≠ v
        · rw [if_pos h4]; left; rfl
        · rw [if_neg h4]; left; rfl
  · simp only [Bool.not_eq_true] at h1
    left
    simp [h1]

theorem visitConn_liveCmd (env : Env) (v : Nat) (sn : Str) (conn : WebConn)
    (cmds : List WebCommand) (m : Nat) (id : Str) :
    liveCmd id (VisitConn env v sn conn cmds m).2.1 = liveCmd id cmds := by
  rcases visitConn_cmds_shape env v sn conn cmds m with h | ⟨c, rest, hc, h⟩
  · rw [h]
  · rw [h, hc]
    simp [liveCmd]

theorem visitConn_length (env : Env) (v : Nat) (sn : Str) (conn : WebConn)
    (cmds : List WebCommand) (m : Nat) :
    (VisitConn env v sn conn cmds m).2.1.length = cmds.length := by
  rcases visitConn_cmds_shape env v sn conn cmds m with h | ⟨c, rest, hc, h⟩
  · rw [h]
  · rw [h, hc]
    simp

theorem visitConn_tailNotRunning (env : Env) (v : Nat) (sn : Str) (conn : WebConn)
    (cmds : List WebCommand) (m : Nat) (h : tailNotRunning cmds) :
    tailNotRunning (VisitConn env v sn conn cmds m).2.1 := by
  rcases visitConn_cmds_shape env v sn conn cmds m with hs | ⟨c, rest, hc, hs⟩
  · rw [hs]; exact h
  · rw [hs]
    intro x hx
    exact h x (by rw [hc]; simpa using hx)

theorem pushLoop_liveCmd (env : Env) (v : Nat) (sn : Str) (conns : List WebConn)
    (cmds : List WebCommand) (m : Nat) (id : Str) :
    liveCmd id (PushLoop env v sn conns cmds m).2.1 = liveCmd id cmds := by
  induction conns generalizing cmds m with
  | nil => simp [PushLoop]
  | cons conn rest ih =>
      simp only [PushLoop]
      rw [ih]
      exact visitConn_liveCmd env v sn conn cmds m id

theorem pushLoop_length (env : Env) (v : Nat) (sn : Str) (conns : List WebConn)
    (cmds : List WebCommand) (m : Nat) :
    (PushLoop env v sn conns cmds m).2.1.length = cmds.length := by
  induction conns generalizing cmds m with
  | nil => simp [PushLoop]
  | cons conn rest ih =>
      simp only [PushLoop]
      rw [ih]
      exact visitConn_length env v sn conn cmds m

theorem pushLoop_tailNotRunning (env : Env) (v : Nat) (sn : Str) (conns : List WebConn)
    (cmds : List WebCommand) (m : Nat) (h : tailNotRunning cmds) :
    tailNotRunning (PushLoop env v sn conns cmds m).2.1 := by
  induction conns generalizing cmds m with
  | nil => simpa [PushLoop] using h
  | cons conn rest ih =>
      simp only [PushLoop]
      exact ih _ _ (visitConn_tailNotRunning env v sn conn cmds m h)

theorem pushLoop_evs_shape (env : Env) (v : Nat) (sn : Str) (conns : List WebConn)
    (cmds : List WebCommand) (m : Nat) :
    ∀ e ∈ (PushLoop env v sn conns cmds m).2.2.2, ∃ cid b, e = Ev.send cid b := by
  induction conns generalizing cmds m with
  | nil => simp [PushLoop]
  | cons conn rest ih =>
      intro e he
      simp only [PushLoop, List.mem_append] at he
      rcases he with he | he
      · rcases hm : (VisitConn env v sn conn cmds m).2.2.2 with _ | b
        · rw [hm] at he; simp at he
        · rw [hm] at he; simp at he
          exact ⟨conn.fConnId, b, he⟩
      · exact ih _ _ e he

theorem cmdNewCount_zero (id : Str) (t : List Ev)
    (h : ∀ e ∈ t, ∀ i a, e ≠ Ev.cmdNew i a) : cmdNewCount id t = 0 := by
  induction t with
  | nil => rfl
  | cons e t ih =>
      have ht : ∀ e' ∈ t, ∀ i a, e' ≠ Ev.cmdNew i a :=
        fun e' he' => h e' (List.mem_cons_of_mem _ he')
      cases e
      all_goals first
        | exact absurd rfl (h _ (List.mem_cons_self _ _) _ _)
        | simpa [cmdNewCount] using ih ht

theorem cmdCbCount_zero (id : Str) (t : List Ev)
    (h : ∀ e ∈ t, ∀ i r, e ≠ Ev.cmdCb i r) : cmdCbCount id t = 0 := by
  induction t with
  | nil => rfl
  | cons e t ih =>
      have ht : ∀ e' ∈ t, ∀ i r, e' ≠ Ev.cmdCb i r :=
        fun e' he' => h e' (List.mem_cons_of_mem _ he')
      cases e
      all_goals first
        | exact absurd rfl (h _ (List.mem_cons_self _ _) _ _)
        | simpa [cmdCbCount] using ih ht

theorem updNewCount_zero (k : Nat) (t : List Ev)
    (h : ∀ e ∈ t, ∀ i ver, e ≠ Ev.updNew i ver) : updNewCount k t = 0 := by
  induction t with
  | nil => rfl
  | cons e t ih =>
      have ht : ∀ e' ∈ t, ∀ i ver, e' ≠ Ev.updNew i ver :=
        fun e' he' => h e' (List.mem_cons_of_mem _ he')
      cases e
      all_goals first
        | exact absurd rfl (h _ (List.mem_cons_self _ _) _ _)
        | simpa [updNewCount] using ih ht

theorem updCbCount_zero (k : Nat) (t : List Ev)
    (h : ∀ e ∈ t, ∀ i r, e ≠ Ev.updCb i r) : updCbCount k t = 0 := by
  induction t with
  | nil => rfl
  | cons e t ih =>
      have ht : ∀ e' ∈ t, ∀ i r, e' ≠ Ev.updCb i r :=
        fun e' he' => h e' (List.mem_cons_of_mem _ he')
      cases e
      all_goals first
        | exact absurd rfl (h _ (List.mem_cons_self _ _) _ _)
        | simpa [updCbCount] using ih ht

theorem pushLoop_no_cmdCb (env : Env) (v : Nat) (sn : Str) (conns : List WebConn)
    (cmds : List WebCommand) (m : Nat) (id : Str) :
    cmdCbCount id (PushLoop env v sn conns cmds m).2.2.2 = 0 := by
  refine cmdCbCount_zero id _ (fun e he i r => ?_)
  obtain ⟨cid, b, rfl⟩ := pushLoop_evs_shape env v sn conns cmds m e he
  simp

theorem pushLoop_no_cmdNew (env : Env) (v : Nat) (sn : Str) (conns : List WebConn)
    (cmds : List WebCommand) (m : Nat) (id : Str) :
    cmdNewCount id (PushLoop env v sn conns cmds m).2.2.2 = 0 := by
  refine cmdNewCount_zero id _ (fun e he i a => ?_)
  obtain ⟨cid, b, rfl⟩ := pushLoop_evs_shape env v sn conns cmds m e he
  simp

theorem pushLoop_no_updNew (env : Env) (v : Nat) (sn : Str) (conns : List WebConn)
    (cmds : List WebCommand) (m : Nat) (k : Nat) :
    updNewCount k (PushLoop env v sn conns cmds m).2.2.2 = 0 := by
  refine updNewCount_zero k _ (fun e he i ver => ?_)
  obtain ⟨cid, b, rfl⟩ := pushLoop_evs_shape env v sn conns cmds m e he
  simp

theorem pushLoop_no_updCb (env : Env) (v : Nat) (sn : Str) (conns : List WebConn)
    (cmds : List WebCommand) (m : Nat) (k : Nat) :
    updCbCount k (PushLoop env v sn conns cmds m).2.2.2 = 0 := by
  refine updCbCount_zero k _ (fun e he i r => ?_)
  obtain ⟨cid, b, rfl⟩ := pushLoop_evs_shape env v sn conns cmds m e he
  simp

theorem cdts_liveCmd (env : Env) (s : TCanvasPainter) (id : Str) :
    liveCmd id (CheckDataToSend env s).1.fCmds = liveCmd id s.fCmds := by
  simp only [CheckDataToSend, CancelUpdates]
  split_ifs <;> simp [pushLoop_liveCmd]

theorem cdts_cmds_length (env : Env) (s : TCanvasPainter) :
    (CheckDataToSend env s).1.fCmds.length = s.fCmds.length := by
  simp only [CheckDataToSend, CancelUpdates]
  split_ifs <;> simp [pushLoop_length]

theorem cdts_tailNotRunning (env : Env) (s : TCanvasPainter)
    (h : tailNotRunning s.fCmds) :
    tailNotRunning (CheckDataToSend env s).1.fCmds := by
  simp only [CheckDataToSend, CancelUpdates]
  split_ifs <;> exact pushLoop_tailNotRunning env _ _ _ _ _ h

theorem cdts_no_cmdCb (env : Env) (s : TCanvasPainter) (id : Str) :
    cmdCbCount id (CheckDataToSend env s).2 = 0 := by
  simp only [CheckDataToSend]
  split_ifs with h1 h2
  · rw [cmdCbCount_append, pushLoop_no_cmdCb, Nat.zero_add]
    refine cmdCbCount_zero id _ (fun e he i r => ?_)
    obtain ⟨j, rfl⟩ := cancelUpdates_shape _ e he
    simp
  · rw [cmdCbCount_append, pushLoop_no_cmdCb, Nat.zero_add]
    refine cmdCbCount_zero id _ (fun e he i r => ?_)
    obtain ⟨j, rfl⟩ := fire_shape _ _ e he
    simp
  · exact pushLoop_no_cmdCb env _ _ _ _ _ id

theorem cdts_no_cmdNew (env : Env) (s : TCanvasPainter) (id : Str) :
    cmdNewCount id (CheckDataToSend env s).2 = 0 := by
  simp only [CheckDataToSend]
  split_ifs with h1 h2
  · rw [cmdNewCount_append, pushLoop_no_cmdNew, Nat.zero_add]
    refine cmdNewCount_zero id _ (fun e he i a => ?_)
    obtain ⟨j, rfl⟩ := cancelUpdates_shape _ e he
    simp
  · rw [cmdNewCount_append, pushLoop_no_cmdNew, Nat.zero_add]
    refine cmdNewCount_zero id _ (fun e he i a => ?_)
    obtain ⟨j, rfl⟩ := fire_shape _ _ e he
    simp
  · exact pushLoop_no_cmdNew env _ _ _ _ _ id

theorem cdts_no_updNew (env : Env) (s : TCanvasPainter) (k : Nat) :
    updNewCount k (CheckDataToSend env s).2 = 0 := by
  simp only [CheckDataToSend]
  split_ifs with h1 h2
  · rw [updNewCount_append, pushLoop_no_updNew, Nat.zero_add]
    refine updNewCount_zero k _ (fun e he i ver => ?_)
    obtain ⟨j, rfl⟩ := cancelUpdates_shape _ e he
    simp
  · rw [updNewCount_append, pushLoop_no_updNew, Nat.zero_add]
    refine updNewCount_zero k _ (fun e he i ver => ?_)
    obtain ⟨j, rfl⟩ := fire_shape _ _ e he
    simp
  · exact pushLoop_no_updNew env _ _ _ _ _ k

theorem cdts_upd_balance (env : Env) (s : TCanvasPainter) (k : Nat)
    (ha : updatesArmed s.fUpdatesLst) :
    updCbCount k (CheckDataToSend env s).2 +
      liveUpd k (CheckDataToSend env s).1.fUpdatesLst = liveUpd k s.fUpdatesLst := by
  simp only [CheckDataToSend]
  split_ifs with h1 h2
  · rw [updCbCount_append, pushLoop_no_updCb, Nat.zero_add]
    have h := cancelUpdates_counts { s with
      fWebConn := (PushLoop env s.fSnapshotVersion s.fSnapshot s.fWebConn s.fCmds 0).1,
      fCmds := (PushLoop env s.fSnapshotVersion s.fSnapshot s.fWebConn s.fCmds 0).2.1 } k
    simpa [liveUpd] using h
  · rw [updCbCount_append, pushLoop_no_updCb, Nat.zero_add]
    have h := fire_balance (PushLoop env s.fSnapshotVersion s.fSnapshot s.fWebConn s.fCmds 0).2.2.1
      s.fUpdatesLst k ha
    simpa using h
  · simp [pushLoop_no_updCb]

theorem cdts_armed (env : Env) (s : TCanvasPainter)
    (ha : updatesArmed s.fUpdatesLst) :
    updatesArmed (CheckDataToSend env s).1.fUpdatesLst := by
  simp only [CheckDataToSend, CancelUpdates]
  split_ifs with h1 h2
  · intro u hu; simp at hu
  · exact fire_armed _ _ ha
  · exact ha

theorem cdts_balanced (env : Env) (s : TCanvasPainter) (t : List Ev)
    (hb : CbBalanced s t) :
    CbBalanced (CheckDataToSend env s).1 (t ++ (CheckDataToSend env s).2) := by
  obtain ⟨hc, hu, ha⟩ := hb
  refine ⟨fun id => ?_, fun k => ?_, cdts_armed env s ha⟩
  · rw [cmdNewCount_append, cmdCbCount_append, cdts_no_cmdNew, cdts_no_cmdCb,
      cdts_liveCmd]
    have := hc id
    omega
  · rw [updNewCount_append, updCbCount_append, cdts_no_updNew]
    have h1 := cdts_upd_balance env s k ha
    have h2 := hu k
    omega

theorem cdts_balanced_cons (env : Env) (s : TCanvasPainter) (t : List Ev) (e : Ev)
    (hb : CbBalanced s (t ++ [e])) :
    CbBalanced (CheckDataToSend env s).1 (t ++ (e :: (CheckDataToSend env s).2)) := by
  have h := cdts_balanced env s (t ++ [e]) hb
  simpa using h

theorem fcr_cmds (reply : Str) (s : TCanvasPainter) :
    (FrontCommandReplied reply s).1.fCmds = s.fCmds.drop 1 := by
  rcases h : s.fCmds with _ | ⟨c, cs⟩ <;> simp [FrontCommandReplied, h]

theorem fcr_updates (reply : Str) (s : TCanvasPainter) :
    (FrontCommandReplied reply s).1.fUpdatesLst = s.fUpdatesLst := by
  rcases h : s.fCmds with _ | ⟨c, cs⟩ <;> simp [FrontCommandReplied, h]

theorem fcr_balanced (reply : Str) (s : TCanvasPainter) (t : List Ev)
    (hb : CbBalanced s t) :
    CbBalanced (FrontCommandReplied reply s).1 (t ++ (FrontCommandReplied reply s).2) := by
  obtain ⟨hc, hu, ha⟩ := hb
  rcases h : s.fCmds with _ | ⟨cmd, rest⟩
  · refine ⟨fun id => ?_, fun k => ?_, ?_⟩
    · simp only [FrontCommandReplied, h, cmdNewCount_append, cmdCbCount_append]
      have := hc id
      rw [h] at this
      simp [cmdNewCount, cmdCbCount]
      omega
    · simp only [FrontCommandReplied, h, updNewCount_append, updCbCount_append]
      have := hu k
      simp [updNewCount, updCbCount]
      omega
    · simpa [FrontCommandReplied, h] using ha
  · have hdec : ∀ e ∈ (ReplyDecode cmd reply).2,
        (∀ i a, e ≠ Ev.cmdNew i a) ∧ (∀ i r, e ≠ Ev.cmdCb i r) ∧
        (∀ i ver, e ≠ Ev.updNew i ver) ∧ (∀ i r, e ≠ Ev.updCb i r) := by
      intro e he
      simp only [ReplyDecode] at he
      split_ifs at he <;> simp_all
    refine ⟨fun id => ?_, fun k => ?_, ?_⟩
    · have hlive := hc id
      rw [h] at hlive
      simp only [liveCmd] at hlive
      simp only [FrontCommandReplied, h, cmdNewCount_append, cmdCbCount_append]
      have hz1 : cmdNewCount id (ReplyDecode cmd reply).2 = 0 :=
        cmdNewCount_zero id _ (fun e he => (hdec e he).1)
      have hz2 : cmdCbCount id (ReplyDecode cmd reply).2 = 0 :=
        cmdCbCount_zero id _ (fun e he => (hdec e he).2.1)
      by_cases harm : cmd.fCallback = true
      · by_cases hid : cmd.fId = id
        · simp [cmdNewCount, cmdCbCount, hz1, hz2, harm, hid, liveCmd] at *
          omega
        · simp [cmdNewCount, cmdCbCount, hz1, hz2, harm, hid, liveCmd] at *
          omega
      · simp only [Bool.not_eq_true] at harm
        simp [cmdNewCount, cmdCbCount, hz1, hz2, harm, liveCmd] at *
        omega
    · have hlive := hu k
      simp only [FrontCommandReplied, h, updNewCount_append, updCbCount_append]
      have hz1 : updNewCount k (ReplyDecode cmd reply).2 = 0 :=
        updNewCount_zero k _ (fun e he => (hdec e he).2.2.1)
      have hz2 : updCbCount k (ReplyDecode cmd reply).2 = 0 :=
        updCbCount_zero k _ (fun e he => (hdec e he).2.2.2)
      by_cases harm : cmd.fCallback = true <;>
        simp [updNewCount, updCbCount, hz1, hz2, harm] at * <;> omega
    · simpa [FrontCommandReplied, h] using ha

theorem cdts_no_conns (env : Env) (s : TCanvasPainter)
    (h1 : s.fWebConn = []) (h2 : s.fSnapshotDelivered = 0) :
    CheckDataToSend env s = (s, []) := by
  obtain ⟨a1, a2, a3, a4, a5, a6, a7, a8, a9, a10, a11⟩ := s
  simp only at h1 h2
  subst h1 h2
  simp [CheckDataToSend, PushLoop]

theorem liveCmd_append (id : Str) (a b : List WebCommand) :
    liveCmd id (a ++ b) = liveCmd id a + liveCmd id b := by
  induction a with
  | nil => simp [liveCmd]
  | cons c cs ih => simp [liveCmd, ih]; omega

theorem liveUpd_append (k : Nat) (a b : List WebUpdate) :
    liveUpd k (a ++ b) = liveUpd k a + liveUpd k b := by
  induction a with
  | nil => simp [liveUpd]
  | cons u us ih => simp [liveUpd, ih]; omega

theorem neutral_no_cmdNew (e : Ev) (h : countedEv e = false) :
    ∀ i a, e ≠ Ev.cmdNew i a := by
  cases e <;> simp [countedEv] at h ⊢

theorem neutral_no_cmdCb (e : Ev) (h : countedEv e = false) :
    ∀ i r, e ≠ Ev.cmdCb i r := by
  cases e <;> simp [countedEv] at h ⊢

theorem neutral_no_updNew (e : Ev) (h : countedEv e = false) :
    ∀ i ver, e ≠ Ev.updNew i ver := by
  cases e <;> simp [countedEv] at h ⊢

theorem neutral_no_updCb (e : Ev) (h : countedEv e = false) :
    ∀ i r, e ≠ Ev.updCb i r := by
  cases e <;> simp [countedEv] at h ⊢

theorem cbBalanced_append_neutral (s : TCanvasPainter) (t evs : List Ev)
    (hb : CbBalanced s t) (h : ∀ e ∈ evs, countedEv e = false) :
    CbBalanced s (t ++ evs) := by
  obtain ⟨hc, hu, ha⟩ := hb
  refine ⟨fun id => ?_, fun k => ?_, ha⟩
  · rw [cmdNewCount_append, cmdCbCount_append,
      cmdNewCount_zero id evs (fun e he => neutral_no_cmdNew e (h e he)),
      cmdCbCount_zero id evs (fun e he => neutral_no_cmdCb e (h e he))]
    have := hc id
    omega
  · rw [updNewCount_append, updCbCount_append,
      updNewCount_zero k evs (fun e he => neutral_no_updNew e (h e he)),
      updCbCount_zero k evs (fun e he => neutral_no_updCb e (h e he))]
    have := hu k
    omega

theorem cbBalanced_mk (s s' : TCanvasPainter) (t : List Ev) (hb : CbBalanced s t)
    (hcmds : s'.fCmds = s.fCmds) (hupds : s'.fUpdatesLst = s.fUpdatesLst) :
    CbBalanced s' t := by
  obtain ⟨hc, hu, ha⟩ := hb
  exact ⟨fun id => by rw [hcmds]; exact hc id,
         fun k => by rw [hupds]; exact hu k,
         by rw [hupds]; exact ha⟩

theorem cancel_balanced (connid : Nat) (s : TCanvasPainter) (t : List Ev)
    (hb : CbBalanced s t) :
    CbBalanced { s with fCmds := (CancelCommandsList connid s.fCmds).1 }
      (t ++ (CancelCommandsList connid s.fCmds).2) := by
  obtain ⟨hc, hu, ha⟩ := hb
  refine ⟨fun id => ?_, fun k => ?_, ha⟩
  · rw [cmdNewCount_append, cmdCbCount_append,
      cmdNewCount_zero id (CancelCommandsList connid s.fCmds).2 (fun e he i a => by
        obtain ⟨j, rfl⟩ := cancel_evs_shape connid s.fCmds e he; simp)]
    have h1 := cancel_balance connid s.fCmds id
    have h2 := hc id
    dsimp only
    omega
  · rw [updNewCount_append, updCbCount_append,
      updNewCount_zero k (CancelCommandsList connid s.fCmds).2 (fun e he i ver => by
        obtain ⟨j, rfl⟩ := cancel_evs_shape connid s.fCmds e he; simp),
      updCbCount_zero k (CancelCommandsList connid s.fCmds).2 (fun e he i r => by
        obtain ⟨j, rfl⟩ := cancel_evs_shape connid s.fCmds e he; simp)]
    have := hu k
    dsimp only
    omega

theorem createSnapshot_neutral (env : Env) (s : TCanvasPainter) :
    ∀ e ∈ (CreateSnapshot env s).2.2, countedEv e = false := by
  simp only [CreateSnapshot]
  split_ifs <;> simp [countedEv]

theorem createSnapshot_fCmds (env : Env) (s : TCanvasPainter) :
    (CreateSnapshot env s).1.fCmds = s.fCmds := by
  simp only [CreateSnapshot]
  split_ifs <;> rfl

theorem createSnapshot_fUpdates (env : Env) (s : TCanvasPainter) :
    (CreateSnapshot env s).1.fUpdatesLst = s.fUpdatesLst := by
  simp only [CreateSnapshot]
  split_ifs <;> rfl

theorem saveCreatedFile_neutral (cdata : Str) :
    ∀ e ∈ SaveCreatedFile cdata, countedEv e = false := by
  simp only [SaveCreatedFile]
  rcases h : splitColon cdata with _ | p <;> simp only [h]
  · simp [countedEv]
  · split_ifs <;> simp [countedEv]

theorem objExec_neutral (env : Env) (cdata : Str) :
    ∀ e ∈ ObjExec env cdata, countedEv e = false := by
  simp only [ObjExec]
  rcases h : splitColon cdata with _ | p <;> simp only [h]
  · simp
  · split_ifs <;> simp [countedEv]

theorem updatesArmed_append (us : List WebUpdate) (u : WebUpdate)
    (h : updatesArmed us) (hu : u.fCallback = true) : updatesArmed (us ++ [u]) := by
  intro x hx
  rcases List.mem_append.mp hx with hx | hx
  · exact h x hx
  · simp at hx
    subst hx
    exact hu

theorem cbBalanced_add_update (s s' : TCanvasPainter) (t : List Ev) (uid ver : Nat)
    (hb : CbBalanced s t)
    (hcmds : s'.fCmds = s.fCmds)
    (hupds : s'.fUpdatesLst = s.fUpdatesLst ++ [⟨uid, ver, true⟩]) :
    CbBalanced s' (t ++ [Ev.updNew uid ver]) := by
  obtain ⟨hc, hu, ha⟩ := hb
  refine ⟨fun id => ?_, fun k => ?_, ?_⟩
  · rw [cmdNewCount_append, cmdCbCount_append, hcmds]
    have := hc id
    simp [cmdNewCount, cmdCbCount]
    omega
  · rw [updNewCount_append, updCbCount_append, hupds, liveUpd_append]
    have := hu k
    by_cases hk : uid = k <;> simp [updNewCount, updCbCount, liveUpd, hk] <;> omega
  · rw [hupds]
    exact updatesArmed_append _ _ ha rfl

theorem cbBalanced_add_cmd (s s' : TCanvasPainter) (t : List Ev) (cmd : WebCommand)
    (hb : CbBalanced s t)
    (hcmds : s'.fCmds = s.fCmds ++ [cmd])
    (hupds : s'.fUpdatesLst = s.fUpdatesLst) :
    CbBalanced s' (t ++ [Ev.cmdNew cmd.fId cmd.fCallback]) := by
  obtain ⟨hc, hu, ha⟩ := hb
  refine ⟨fun id => ?_, fun k => ?_, by rw [hupds]; exact ha⟩
  · rw [cmdNewCount_append, cmdCbCount_append, hcmds, liveCmd_append]
    have := hc id
    by_cases hid : cmd.fId = id
    · by_cases harm : cmd.fCallback = true <;>
        simp [cmdNewCount, cmdCbCount, liveCmd, hid, harm] <;> omega
    · by_cases harm : cmd.fCallback = true <;>
        simp [cmdNewCount, cmdCbCount, liveCmd, hid, harm] <;> omega
  · rw [updNewCount_append, updCbCount_append, hupds]
    have := hu k
    simp [updNewCount, updCbCount]
    omega

theorem cancelUpdates_balanced (s : TCanvasPainter) (t : List Ev)
    (hb : CbBalanced s t) :
    CbBalanced (CancelUpdates s).1 (t ++ (CancelUpdates s).2) := by
  obtain ⟨hc, hu, ha⟩ := hb
  refine ⟨fun id => ?_, fun k => ?_, ?_⟩
  · rw [cmdNewCount_append, cmdCbCount_append,
      cmdNewCount_zero id (CancelUpdates s).2 (fun e he i a => by
        obtain ⟨j, rfl⟩ := cancelUpdates_shape s e he; simp),
      cmdCbCount_zero id (CancelUpdates s).2 (fun e he i r => by
        obtain ⟨j, rfl⟩ := cancelUpdates_shape s e he; simp)]
    have := hc id
    simp only [CancelUpdates]
    omega
  · rw [updNewCount_append, updCbCount_append,
      updNewCount_zero k (CancelUpdates s).2 (fun e he i ver => by
        obtain ⟨j, rfl⟩ := cancelUpdates_shape s e he; simp),
      cancelUpdates_counts s k]
    have := hu k
    simp only [CancelUpdates, liveUpd]
    omega
  · intro u hu2
    simp [CancelUpdates] at hu2

theorem destroy_balanced (s : TCanvasPainter) (t : List Ev) (hb : CbBalanced s t) :
    CbBalanced (DestroyPainter s).1 (t ++ (DestroyPainter s).2) := by
  simp only [DestroyPainter]
  rw [← List.append_assoc]
  exact cancelUpdates_balanced _ _ (cancel_balanced 0 s t hb)

theorem canvasUpdated_balanced (env : Env) (ver : Nat) (async hasCb : Bool)
    (s : TCanvasPainter) (t : List Ev) (hb : CbBalanced s t) :
    CbBalanced (CanvasUpdated env ver async hasCb s).1
      (t ++ (CanvasUpdated env ver async hasCb s).2) := by
  have hbase : CbBalanced { (CreateSnapshot env s).1 with
      fSnapshotVersion := ver, fSnapshot := (CreateSnapshot env s).2.1 }
      (t ++ (CreateSnapshot env s).2.2) :=
    cbBalanced_mk _ _ _
      (cbBalanced_append_neutral s t _ hb (createSnapshot_neutral env s))
      (createSnapshot_fCmds env s) (createSnapshot_fUpdates env s)
  cases hasCb with
  | false =>
      simp only [CanvasUpdated, Bool.false_eq_true, if_false]
      split_ifs with h1 h2
      · rw [List.append_nil]
        exact hb
      · rw [List.append_nil]
        exact hbase
      · rw [← List.append_assoc]
        exact cdts_balanced env _ _ hbase
  | true =>
      simp only [CanvasUpdated, if_true]
      split_ifs with h1 h2
      · exact cbBalanced_append_neutral s t _ hb (fun e he => by simp_all [countedEv])
      · rw [List.append_cons, List.append_nil, ← List.append_assoc]
        exact cbBalanced_append_neutral _ _ _ hbase (fun e he => by simp_all [countedEv])
      · rw [← List.append_assoc, ← List.append_assoc]
        exact cbBalanced_add_update _ _ _ _ ver (cdts_balanced env _ _ hbase) rfl rfl

theorem doWhenReady_balanced (env : Env) (name arg : Str) (async hasCb : Bool)
    (s : TCanvasPainter) (t : List Ev) (hb : CbBalanced s t) :
    CbBalanced (DoWhenReady env name arg async hasCb s).1
      (t ++ (DoWhenReady env name arg async hasCb s).2) := by
  have hwin : CbBalanced { s with fWindow := true } t := cbBalanced_mk s _ t hb rfl rfl
  cases hasCb with
  | false =>
      simp only [DoWhenReady, Bool.false_eq_true, if_false]
      split_ifs with h1 h2
      · rw [List.append_nil]
        exact cbBalanced_mk s _ t hb rfl rfl
      · rw [List.append_nil]
        exact hwin
      · exact cdts_balanced_cons env _ t _
          (cbBalanced_add_cmd _ _ t
            ⟨(Nat.repr ((s.fCmdsCnt + 1) % (2 ^ 64))).data, name, arg, false, false,
              false, false, env.makeBatch⟩ hwin rfl rfl)
  | true =>
      simp only [DoWhenReady, if_true]
      split_ifs with h1 h2
      · rw [List.append_nil]
        exact cbBalanced_mk s _ t hb rfl rfl
      · exact cbBalanced_append_neutral _ t _ hwin (fun e he => by simp_all [countedEv])
      · exact cdts_balanced_cons env _ t _
          (cbBalanced_add_cmd _ _ t
            ⟨(Nat.repr ((s.fCmdsCnt + 1) % (2 ^ 64))).data, name, arg, false, false,
              false, true, env.makeBatch⟩ hwin rfl rfl)

theorem addPanel_balanced (env : Env) (s : TCanvasPainter) (t : List Ev)
    (hb : CbBalanced s t) :
    CbBalanced (AddPanel env s).1 (t ++ (AddPanel env s).2.1) := by
  simp only [AddPanel]
  split_ifs with h1 h2 h3
  · exact cbBalanced_append_neutral s t _ hb (fun e he => by simp_all [countedEv])
  · exact cbBalanced_append_neutral s t _ hb (fun e he => by simp_all [countedEv])
  · exact cbBalanced_append_neutral s t _ hb (fun e he => by simp_all [countedEv])
  · exact doWhenReady_balanced env _ _ true false s t hb


theorem processData_connReady (env : Env) (connid : Nat) (arg : Str) (s : TCanvasPainter)
    (h1 : arg = "CONN_READY".data) :
    ProcessData env connid arg s = CheckDataToSend env
      { s with fWebConn := s.fWebConn ++ [⟨connid, false, [], 0, 0⟩], fHadWebConn := true } := by
  unfold ProcessData
  rw [if_pos h1]

theorem processData_noConn (env : Env) (connid : Nat) (arg : Str) (s : TCanvasPainter)
    (h1 : arg ≠ "CONN_READY".data)
    (h2 : (s.fWebConn.find? (fun c => c.fConnId == connid)).isNone = true) :
    ProcessData env connid arg s = (s, []) := by
  unfold ProcessData
  rw [if_neg h1, if_pos h2]

theorem processData_connClosed (env : Env) (connid : Nat) (arg : Str) (s : TCanvasPainter)
    (h1 : arg ≠ "CONN_READY".data)
    (h2 : (s.fWebConn.find? (fun c => c.fConnId == connid)).isNone = false)
    (h3 : arg = "CONN_CLOSED".data) :
    ProcessData env connid arg s =
      ((CheckDataToSend env { s with fWebConn := EraseConnFirst connid s.fWebConn, fCmds := (CancelCommandsList connid s.fCmds).1 }).1,
       (CancelCommandsList connid s.fCmds).2 ++
       (CheckDataToSend env { s with fWebConn := EraseConnFirst connid s.fWebConn, fCmds := (CancelCommandsList connid s.fCmds).1 }).2) := by
  unfold ProcessData
  rw [if_neg h1, h2, if_pos h3]
  rfl

theorem processData_ready (env : Env) (connid : Nat) (arg : Str) (s : TCanvasPainter)
    (h1 : arg ≠ "CONN_READY".data)
    (h2 : (s.fWebConn.find? (fun c => c.fConnId == connid)).isNone = false)
    (h3 : arg ≠ "CONN_CLOSED".data)
    (h4 : "READY".data.isPrefixOf arg = true) :
    ProcessData env connid arg s = CheckDataToSend env s := by
  unfold ProcessData
  rw [if_neg h1, h2, if_neg h3, if_pos h4]
  rfl

theorem processData_snapdone (env : Env) (connid : Nat) (arg : Str) (s : TCanvasPainter)
    (h1 : arg ≠ "CONN_READY".data)
    (h2 : (s.fWebConn.find? (fun c => c.fConnId == connid)).isNone = false)
    (h3 : arg ≠ "CONN_CLOSED".data)
    (h4 : "READY".data.isPrefixOf arg = false)
    (h5 : "SNAPDONE:".data.isPrefixOf arg = true) :
    ProcessData env connid arg s = CheckDataToSend env
      { s with fWebConn := (UpdateConnFirst connid
          (fun c => { c with fDrawReady := true, fDelivered := stollVer (arg.drop 9) })
          s.fWebConn) } := by
  unfold ProcessData
  rw [if_neg h1, h2, if_neg h3, h4, if_pos h5]
  rfl

theorem processData_rready (env : Env) (connid : Nat) (arg : Str) (s : TCanvasPainter)
    (h1 : arg ≠ "CONN_READY".data)
    (h2 : (s.fWebConn.find? (fun c => c.fConnId == connid)).isNone = false)
    (h3 : arg ≠ "CONN_CLOSED".data)
    (h4 : "READY".data.isPrefixOf arg = false)
    (h5 : "SNAPDONE:".data.isPrefixOf arg = false)
    (h6 : "RREADY:".data.isPrefixOf arg = true) :
    ProcessData env connid arg s = CheckDataToSend env
      { s with fWebConn := (UpdateConnFirst connid
          (fun c => { c with fDrawReady := true }) s.fWebConn) } := by
  unfold ProcessData
  rw [if_neg h1, h2, if_neg h3, h4, h5, if_pos h6]
  rfl

theorem processData_getmenu (env : Env) (connid : Nat) (arg : Str) (s : TCanvasPainter)
    (h1 : arg ≠ "CONN_READY".data)
    (h2 : (s.fWebConn.find? (fun c => c.fConnId == connid)).isNone = false)
    (h3 : arg ≠ "CONN_CLOSED".data)
    (h4 : "READY".data.isPrefixOf arg = false)
    (h5 : "SNAPDONE:".data.isPrefixOf arg = false)
    (h6 : "RREADY:".data.isPrefixOf arg = false)
    (h7 : "GETMENU:".data.isPrefixOf arg = true) :
    ProcessData env connid arg s = CheckDataToSend env
      { s with fWebConn := (UpdateConnFirst connid
          (fun c => { c with fGetMenu := arg.drop 8 }) s.fWebConn) } := by
  unfold ProcessData
  rw [if_neg h1, h2, if_neg h3, h4, h5, h6, if_pos h7]
  rfl

theorem processData_quit (env : Env) (connid : Nat) (arg : Str) (s : TCanvasPainter)
    (h1 : arg ≠ "CONN_READY".data)
    (h2 : (s.fWebConn.find? (fun c => c.fConnId == connid)).isNone = false)
    (h3 : arg ≠ "CONN_CLOSED".data)
    (h4 : "READY".data.isPrefixOf arg = false)
    (h5 : "SNAPDONE:".data.isPrefixOf arg = false)
    (h6 : "RREADY:".data.isPrefixOf arg = false)
    (h7 : "GETMENU:".data.isPrefixOf arg = false)
    (h8 : arg = "QUIT".data) :
    ProcessData env connid arg s = (s, [Ev.terminate]) := by
  unfold ProcessData
  rw [if_neg h1, h2, if_neg h3, h4, h5, h6, h7, if_pos h8]
  rfl

theorem processData_reload (env : Env) (connid : Nat) (arg : Str) (s : TCanvasPainter)
    (h1 : arg ≠ "CONN_READY".data)
    (h2 : (s.fWebConn.find? (fun c => c.fConnId == connid)).isNone = false)
    (h3 : arg ≠ "CONN_CLOSED".data)
    (h4 : "READY".data.isPrefixOf arg = false)
    (h5 : "SNAPDONE:".data.isPrefixOf arg = false)
    (h6 : "RREADY:".data.isPrefixOf arg = false)
    (h7 : "GETMENU:".data.isPrefixOf arg = false)
    (h8 : arg ≠ "QUIT".data)
    (h9 : arg = "RELOAD".data) :
    ProcessData env connid arg s = CheckDataToSend env
      { s with fWebConn := (UpdateConnFirst connid
          (fun c => { c with fSend := 0 }) s.fWebConn) } := by
  unfold ProcessData
  rw [if_neg h1, h2, if_neg h3, h4, h5, h6, h7, if_neg h8, if_pos h9]
  rfl

theorem processData_interrupt (env : Env) (connid : Nat) (arg : Str) (s : TCanvasPainter)
    (h1 : arg ≠ "CONN_READY".data)
    (h2 : (s.fWebConn.find? (fun c => c.fConnId == connid)).isNone = false)
    (h3 : arg ≠ "CONN_CLOSED".data)
    (h4 : "READY".data.isPrefixOf arg = false)
    (h5 : "SNAPDONE:".data.isPrefixOf arg = false)
    (h6 : "RREADY:".data.isPrefixOf arg = false)
    (h7 : "GETMENU:".data.isPrefixOf arg = false)
    (h8 : arg ≠ "QUIT".data)
    (h9 : arg ≠ "RELOAD".data)
    (h10 : arg = "INTERRUPT".data) :
    ProcessData env connid arg s =
      ((CheckDataToSend env s).1, Ev.interrupt :: (CheckDataToSend env s).2) := by
  unfold ProcessData
  rw [if_neg h1, h2, if_neg h3, h4, h5, h6, h7, if_neg h8, if_neg h9, if_pos h10]
  rfl

theorem processData_replyEmpty (env : Env) (connid : Nat) (arg : Str) (s : TCanvasPainter)
    (h1 : arg ≠ "CONN_READY".data)
    (h2 : (s.fWebConn.find? (fun c => c.fConnId == connid)).isNone = false)
    (h3 : arg ≠ "CONN_CLOSED".data)
    (h4 : "READY".data.isPrefixOf arg = false)
    (h5 : "SNAPDONE:".data.isPrefixOf arg = false)
    (h6 : "RREADY:".data.isPrefixOf arg = false)
    (h7 : "GETMENU:".data.isPrefixOf arg = false)
    (h8 : arg ≠ "QUIT".data)
    (h9 : arg ≠ "RELOAD".data)
    (h10 : arg ≠ "INTERRUPT".data)
    (h11 : "REPLY:".data.isPrefixOf arg = true)
    (hcs : s.fCmds = []) :
    ProcessData env connid arg s =
      ((CheckDataToSend env s).1,
       Ev.errorMsg "Get REPLY without command".data :: (CheckDataToSend env s).2) := by
  unfold ProcessData
  rw [if_neg h1, h2, if_neg h3, h4, h5, h6, h7, if_neg h8, if_neg h9, if_neg h10,
    if_pos h11]
  dsimp only
  simp only [hcs]
  rfl

theorem processData_replyNotRunning (env : Env) (connid : Nat) (arg : Str)
    (s : TCanvasPainter) (cmd : WebCommand) (rest : List WebCommand)
    (h1 : arg ≠ "CONN_READY".data)
    (h2 : (s.fWebConn.find? (fun c => c.fConnId == connid)).isNone = false)
    (h3 : arg ≠ "CONN_CLOSED".data)
    (h4 : "READY".data.isPrefixOf arg = false)
    (h5 : "SNAPDONE:".data.isPrefixOf arg = false)
    (h6 : "RREADY:".data.isPrefixOf arg = false)
    (h7 : "GETMENU:".data.isPrefixOf arg = false)
    (h8 : arg ≠ "QUIT".data)
    (h9 : arg ≠ "RELOAD".data)
    (h10 : arg ≠ "INTERRUPT".data)
    (h11 : "REPLY:".data.isPrefixOf arg = true)
    (hcs : s.fCmds = cmd :: rest)
    (hrun : cmd.fRunning = false) :
    ProcessData env connid arg s =
      ((CheckDataToSend env s).1,
       Ev.errorMsg "Front command is not running when get reply".data ::
         (CheckDataToSend env s).2) := by
  unfold ProcessData
  rw [if_neg h1, h2, if_neg h3, h4, h5, h6, h7, if_neg h8, if_neg h9, if_neg h10,
    if_pos h11]
  dsimp only
  simp only [hcs]
  rw [hrun]
  rfl

theorem processData_replyMismatch (env : Env) (connid : Nat) (arg : Str)
    (s : TCanvasPainter) (cmd : WebCommand) (rest : List WebCommand)
    (h1 : arg ≠ "CONN_READY".data)
    (h2 : (s.fWebConn.find? (fun c => c.fConnId == connid)).isNone = false)
    (h3 : arg ≠ "CONN_CLOSED".data)
    (h4 : "READY".data.isPrefixOf arg = false)
    (h5 : "SNAPDONE:".data.isPrefixOf arg = false)
    (h6 : "RREADY:".data.isPrefixOf arg = false)
    (h7 : "GETMENU:".data.isPrefixOf arg = false)
    (h8 : arg ≠ "QUIT".data)
    (h9 : arg ≠ "RELOAD".data)
    (h10 : arg ≠ "INTERRUPT".data)
    (h11 : "REPLY:".data.isPrefixOf arg = true)
    (hcs : s.fCmds = cmd :: rest)
    (hrun : cmd.fRunning = true)
    (hid : cmd.fId ≠ (match splitColon (arg.drop 6) with | some p => p.1 | none => [])) :
    ProcessData env connid arg s =
      ((CheckDataToSend env s).1,
       Ev.errorMsg "Mismatch with front command and ID in REPLY".data ::
         (CheckDataToSend env s).2) := by
  unfold ProcessData
  rw [if_neg h1, h2, if_neg h3, h4, h5, h6, h7, if_neg h8, if_neg h9, if_neg h10,
    if_pos h11]
  dsimp only
  simp only [hcs]
  rw [hrun]
  simp only [Bool.not_true, Bool.false_eq_true, if_false]
  rw [if_pos hid]

theorem processData_replyValid (env : Env) (connid : Nat) (arg : Str)
    (s : TCanvasPainter) (cmd : WebCommand) (rest : List WebCommand)
    (h1 : arg ≠ "CONN_READY".data)
    (h2 : (s.fWebConn.find? (fun c => c.fConnId == connid)).isNone = false)
    (h3 : arg ≠ "CONN_CLOSED".data)
    (h4 : "READY".data.isPrefixOf arg = false)
    (h5 : "SNAPDONE:".data.isPrefixOf arg = false)
    (h6 : "RREADY:".data.isPrefixOf arg = false)
    (h7 : "GETMENU:".data.isPrefixOf arg = false)
    (h8 : arg ≠ "QUIT".data)
    (h9 : arg ≠ "RELOAD".data)
    (h10 : arg ≠ "INTERRUPT".data)
    (h11 : "REPLY:".data.isPrefixOf arg = true)
    (hcs : s.fCmds = cmd :: rest)
    (hrun : cmd.fRunning = true)
    (hid : cmd.fId = (match splitColon (arg.drop 6) with | some p => p.1 | none => [])) :
    ProcessData env connid arg s =
      ((CheckDataToSend env (FrontCommandReplied
          (match splitColon (arg.drop 6) with | some p => p.2 | none => []) s).1).1,
       (FrontCommandReplied
          (match splitColon (arg.drop 6) with | some p => p.2 | none => []) s).2 ++
       (CheckDataToSend env (FrontCommandReplied
          (match splitColon (arg.drop 6) with | some p => p.2 | none => []) s).1).2) := by
  unfold ProcessData
  rw [if_neg h1, h2, if_neg h3, h4, h5, h6, h7, if_neg h8, if_neg h9, if_neg h10,
    if_pos h11]
  dsimp only
  simp only [hcs]
  rw [hrun]
  simp only [Bool.not_true, Bool.false_eq_true, if_false]
  rw [if_neg (fun hne => hne hid)]

theorem processData_save (env : Env) (connid : Nat) (arg : Str) (s : TCanvasPainter)
    (h1 : arg ≠ "CONN_READY".data)
    (h2 : (s.fWebConn.find? (fun c => c.fConnId == connid)).isNone = false)
    (h3 : arg ≠ "CONN_CLOSED".data)
    (h4 : "READY".data.isPrefixOf arg = false)
    (h5 : "SNAPDONE:".data.isPrefixOf arg = false)
    (h6 : "RREADY:".data.isPrefixOf arg = false)
    (h7 : "GETMENU:".data.isPrefixOf arg = false)
    (h8 : arg ≠ "QUIT".data)
    (h9 : arg ≠ "RELOAD".data)
    (h10 : arg ≠ "INTERRUPT".data)
    (h11 : "REPLY:".data.isPrefixOf arg = false)
    (h12 : "SAVE:".data.isPrefixOf arg = true) :
    ProcessData env connid arg s =
      ((CheckDataToSend env s).1,
       SaveCreatedFile (arg.drop 5) ++ (CheckDataToSend env s).2) := by
  unfold ProcessData
  rw [if_neg h1, h2, if_neg h3, h4, h5, h6, h7, if_neg h8, if_neg h9, if_neg h10,
    h11, if_pos h12]
  rfl

theorem processData_objexec (env : Env) (connid : Nat) (arg : Str) (s : TCanvasPainter)
    (h1 : arg ≠ "CONN_READY".data)
    (h2 : (s.fWebConn.find? (fun c => c.fConnId == connid)).isNone = false)
    (h3 : arg ≠ "CONN_CLOSED".data)
    (h4 : "READY".data.isPrefixOf arg = false)
    (h5 : "SNAPDONE:".data.isPrefixOf arg = false)
    (h6 : "RREADY:".data.isPrefixOf arg = false)
    (h7 : "GETMENU:".data.isPrefixOf arg = false)
    (h8 : arg ≠ "QUIT".data)
    (h9 : arg ≠ "RELOAD".data)
    (h10 : arg ≠ "INTERRUPT".data)
    (h11 : "REPLY:".data.isPrefixOf arg = false)
    (h12 : "SAVE:".data.isPrefixOf arg = false)
    (h13 : "OBJEXEC:".data.isPrefixOf arg = true) :
    ProcessData env connid arg s =
      ((CheckDataToSend env s).1,
       ObjExec env (arg.drop 8) ++ (CheckDataToSend env s).2) := by
  unfold ProcessData
  rw [if_neg h1, h2, if_neg h3, h4, h5, h6, h7, if_neg h8, if_neg h9, if_neg h10,
    h11, h12, if_pos h13]
  rfl

theorem processData_unknown (env : Env) (connid : Nat) (arg : Str) (s : TCanvasPainter)
    (h1 : arg ≠ "CONN_READY".data)
    (h2 : (s.fWebConn.find? (fun c => c.fConnId == connid)).isNone = false)
    (h3 : arg ≠ "CONN_CLOSED".data)
    (h4 : "READY".data.isPrefixOf arg = false)
    (h5 : "SNAPDONE:".data.isPrefixOf arg = false)
    (h6 : "RREADY:".data.isPrefixOf arg = false)
    (h7 : "GETMENU:".data.isPrefixOf arg = false)
    (h8 : arg ≠ "QUIT".data)
    (h9 : arg ≠ "RELOAD".data)
    (h10 : arg ≠ "INTERRUPT".data)
    (h11 : "REPLY:".data.isPrefixOf arg = false)
    (h12 : "SAVE:".data.isPrefixOf arg = false)
    (h13 : "OBJEXEC:".data.isPrefixOf arg = false) :
    ProcessData env connid arg s =
      ((CheckDataToSend env s).1,
       Ev.errorMsg "Got not recognized reply".data :: (CheckDataToSend env s).2) := by
  unfold ProcessData
  rw [if_neg h1, h2, if_neg h3, h4, h5, h6, h7, if_neg h8, if_neg h9, if_neg h10,
    h11, h12, h13]
  rfl

theorem processData_balanced (env : Env) (connid : Nat) (arg : Str)
    (s : TCanvasPainter) (t : List Ev) (hb : CbBalanced s t) :
    CbBalanced (ProcessData env connid arg s).1 (t ++ (ProcessData env connid arg s).2) := by
  by_cases h1 : arg = "CONN_READY".data
  · rw [processData_connReady env connid arg s h1]
    exact cdts_balanced env _ t (cbBalanced_mk s _ t hb rfl rfl)
  by_cases h2 : (s.fWebConn.find? (fun c => c.fConnId == connid)).isNone = true
  · rw [processData_noConn env connid arg s h1 h2]
    simpa using hb
  rw [Bool.not_eq_true] at h2
  by_cases h3 : arg = "CONN_CLOSED".data
  · rw [processData_connClosed env connid arg s h1 h2 h3]
    dsimp only
    rw [← List.append_assoc]
    exact cdts_balanced env _ _
      (cbBalanced_mk _ _ _ (cancel_balanced connid s t hb) rfl rfl)
  by_cases h4 : "READY".data.isPrefixOf arg = true
  · rw [processData_ready env connid arg s h1 h2 h3 h4]
    exact cdts_balanced env s t hb
  rw [Bool.not_eq_true] at h4
  by_cases h5 : "SNAPDONE:".data.isPrefixOf arg = true
  · rw [processData_snapdone env connid arg s h1 h2 h3 h4 h5]
    exact cdts_balanced env _ t (cbBalanced_mk s _ t hb rfl rfl)
  rw [Bool.not_eq_true] at h5
  by_cases h6 : "RREADY:".data.isPrefixOf arg = true
  · rw [processData_rready env connid arg s h1 h2 h3 h4 h5 h6]
    exact cdts_balanced env _ t (cbBalanced_mk s _ t hb rfl rfl)
  rw [Bool.not_eq_true] at h6
  by_cases h7 : "GETMENU:".data.isPrefixOf arg = true
  · rw [processData_getmenu env connid arg s h1 h2 h3 h4 h5 h6 h7]
    exact cdts_balanced env _ t (cbBalanced_mk s _ t hb rfl rfl)
  rw [Bool.not_eq_true] at h7
  by_cases h8 : arg = "QUIT".data
  · rw [processData_quit env connid arg s h1 h2 h3 h4 h5 h6 h7 h8]
    exact cbBalanced_append_neutral s t _ hb (fun e he => by simp_all [countedEv])
  by_cases h9 : arg = "RELOAD".data
  · rw [processData_reload env connid arg s h1 h2 h3 h4 h5 h6 h7 h8 h9]
    exact cdts_balanced env _ t (cbBalanced_mk s _ t hb rfl rfl)
  by_cases h10 : arg = "INTERRUPT".data
  · rw [processData_interrupt env connid arg s h1 h2 h3 h4 h5 h6 h7 h8 h9 h10]
    exact cdts_balanced_cons env s t _
      (cbBalanced_append_neutral s t _ hb (fun e he => by simp_all [countedEv]))
  by_cases h11 : "REPLY:".data.isPrefixOf arg = true
  · rcases hcs : s.fCmds with _ | ⟨cmd, rest⟩
    · rw [processData_replyEmpty env connid arg s h1 h2 h3 h4 h5 h6 h7 h8 h9 h10 h11 hcs]
      exact cdts_balanced_cons env s t _
        (cbBalanced_append_neutral s t _ hb (fun e he => by simp_all [countedEv]))
    · by_cases hrun : cmd.fRunning = true
      · by_cases hid : cmd.fId =
            (match splitColon (arg.drop 6) with | some p => p.1 | none => [])
        · rw [processData_replyValid env connid arg s cmd rest h1 h2 h3 h4 h5 h6 h7 h8
            h9 h10 h11 hcs hrun hid]
          dsimp only
          rw [← List.append_assoc]
          exact cdts_balanced env _ _ (fcr_balanced _ s t hb)
        · rw [processData_replyMismatch env connid arg s cmd rest h1 h2 h3 h4 h5 h6 h7
            h8 h9 h10 h11 hcs hrun hid]
          exact cdts_balanced_cons env s t _
            (cbBalanced_append_neutral s t _ hb (fun e he => by simp_all [countedEv]))
      · rw [Bool.not_eq_true] at hrun
        rw [processData_replyNotRunning env connid arg s cmd rest h1 h2 h3 h4 h5 h6 h7
          h8 h9 h10 h11 hcs hrun]
        exact cdts_balanced_cons env s t _
          (cbBalanced_append_neutral s t _ hb (fun e he => by simp_all [countedEv]))
  rw [Bool.not_eq_true] at h11
  by_cases h12 : "SAVE:".data.isPrefixOf arg = true
  · rw [processData_save env connid arg s h1 h2 h3 h4 h5 h6 h7 h8 h9 h10 h11 h12]
    dsimp only
    rw [← List.append_assoc]
    exact cdts_balanced env s _
      (cbBalanced_append_neutral s t _ hb (saveCreatedFile_neutral _))
  rw [Bool.not_eq_true] at h12
  by_cases h13 : "OBJEXEC:".data.isPrefixOf arg = true
  · rw [processData_objexec env connid arg s h1 h2 h3 h4 h5 h6 h7 h8 h9 h10 h11 h12 h13]
    dsimp only
    rw [← List.append_assoc]
    exact cdts_balanced env s _
      (cbBalanced_append_neutral s t _ hb (objExec_neutral env _))
  rw [Bool.not_eq_true] at h13
  rw [processData_unknown env connid arg s h1 h2 h3 h4 h5 h6 h7 h8 h9 h10 h11 h12 h13]
  exact cdts_balanced_cons env s t _
    (cbBalanced_append_neutral s t _ hb (fun e he => by simp_all [countedEv]))

theorem step_balanced (s : TCanvasPainter) (t : List Ev) (i : PInput)
    (hb : CbBalanced s t) : CbBalanced (step s i).1 (t ++ (step s i).2) := by
  cases i with
  | msg env connid arg => exact processData_balanced env connid arg s t hb
  | update env ver async hasCb => exact canvasUpdated_balanced env ver async hasCb s t hb
  | command env name arg async hasCb =>
      exact doWhenReady_balanced env name arg async hasCb s t hb
  | panel env => exact addPanel_balanced env s t hb
  | display =>
      simp only [step]
      rw [List.append_nil]
      exact cbBalanced_mk s (NewDisplay s) t hb rfl rfl
  | destroy => exact destroy_balanced s t hb

theorem run_balanced (s : TCanvasPainter) (t : List Ev) (l : List PInput)
    (hb : CbBalanced s t) : CbBalanced (run s l).1 (t ++ (run s l).2) := by
  induction l generalizing s t with
  | nil => simpa [run] using hb
  | cons i is ih =>
      simp only [run]
      rw [← List.append_assoc]
      exact ih (step s i).1 (t ++ (step s i).2) (step_balanced s t i hb)

theorem tailNotRunning_drop (cs : List WebCommand) (h : tailNotRunning cs) :
    tailNotRunning (cs.drop 1) := by
  intro c hc
  exact h c (List.mem_of_mem_drop hc)

theorem tailNotRunning_append (cs : List WebCommand) (c : WebCommand)
    (h : tailNotRunning cs) (hc : c.fRunning = false) :
    tailNotRunning (cs ++ [c]) := by
  intro x hx
  rcases cs with _ | ⟨c0, cs⟩
  · simp at hx
  · simp only [List.cons_append, List.drop_one, List.tail_cons] at hx
    rcases List.mem_append.mp hx with hx | hx
    · exact h x (by simpa using hx)
    · simp at hx
      subst hx
      exact hc

theorem fcr_tailNotRunning (reply : Str) (s : TCanvasPainter)
    (h : tailNotRunning s.fCmds) :
    tailNotRunning (FrontCommandReplied reply s).1.fCmds := by
  rw [fcr_cmds]
  exact tailNotRunning_drop _ h

theorem processData_tailNotRunning (env : Env) (connid : Nat) (arg : Str)
    (s : TCanvasPainter) (h : tailNotRunning s.fCmds) :
    tailNotRunning (ProcessData env connid arg s).1.fCmds := by
  by_cases h1 : arg = "CONN_READY".data
  · rw [processData_connReady env connid arg s h1]
    exact cdts_tailNotRunning env _ h
  by_cases h2 : (s.fWebConn.find? (fun c => c.fConnId == connid)).isNone = true
  · rw [processData_noConn env connid arg s h1 h2]
    exact h
  rw [Bool.not_eq_true] at h2
  by_cases h3 : arg = "CONN_CLOSED".data
  · rw [processData_connClosed env connid arg s h1 h2 h3]
    exact cdts_tailNotRunning env _ (cancel_tailNotRunning connid s.fCmds h)
  by_cases h4 : "READY".data.isPrefixOf arg = true
  · rw [processData_ready env connid arg s h1 h2 h3 h4]
    exact cdts_tailNotRunning env s h
  rw [Bool.not_eq_true] at h4
  by_cases h5 : "SNAPDONE:".data.isPrefixOf arg = true
  · rw [processData_snapdone env connid arg s h1 h2 h3 h4 h5]
    exact cdts_tailNotRunning env _ h
  rw [Bool.not_eq_true] at h5
  by_cases h6 : "RREADY:".data.isPrefixOf arg = true
  · rw [processData_rready env connid arg s h1 h2 h3 h4 h5 h6]
    exact cdts_tailNotRunning env _ h
  rw [Bool.not_eq_true] at h6
  by_cases h7 : "GETMENU:".data.isPrefixOf arg = true
  · rw [processData_getmenu env connid arg s h1 h2 h3 h4 h5 h6 h7]
    exact cdts_tailNotRunning env _ h
  rw [Bool.not_eq_true] at h7
  by_cases h8 : arg = "QUIT".data
  · rw [processData_quit env connid arg s h1 h2 h3 h4 h5 h6 h7 h8]
    exact h
  by_cases h9 : arg = "RELOAD".data
  · rw [processData_reload env connid arg s h1 h2 h3 h4 h5 h6 h7 h8 h9]
    exact cdts_tailNotRunning env _ h
  by_cases h10 : arg = "INTERRUPT".data
  · rw [processData_interrupt env connid arg s h1 h2 h3 h4 h5 h6 h7 h8 h9 h10]
    exact cdts_tailNotRunning env s h
  by_cases h11 : "REPLY:".data.isPrefixOf arg = true
  · rcases hcs : s.fCmds with _ | ⟨cmd, rest⟩
    · rw [processData_replyEmpty env connid arg s h1 h2 h3 h4 h5 h6 h7 h8 h9 h10 h11 hcs]
      exact cdts_tailNotRunning env s h
    · by_cases hrun : cmd.fRunning = true
      · by_cases hid : cmd.fId =
            (match splitColon (arg.drop 6) with | some p => p.1 | none => [])
        · rw [processData_replyValid env connid arg s cmd rest h1 h2 h3 h4 h5 h6 h7 h8
            h9 h10 h11 hcs hrun hid]
          exact cdts_tailNotRunning env _ (fcr_tailNotRunning _ s h)
        · rw [processData_replyMismatch env connid arg s cmd rest h1 h2 h3 h4 h5 h6 h7
            h8 h9 h10 h11 hcs hrun hid]
          exact cdts_tailNotRunning env s h
      · rw [Bool.not_eq_true] at hrun
        rw [processData_replyNotRunning env connid arg s cmd rest h1 h2 h3 h4 h5 h6 h7
          h8 h9 h10 h11 hcs hrun]
        exact cdts_tailNotRunning env s h
  rw [Bool.not_eq_true] at h11
  by_cases h12 : "SAVE:".data.isPrefixOf arg = true
  · rw [processData_save env connid arg s h1 h2 h3 h4 h5 h6 h7 h8 h9 h10 h11 h12]
    exact cdts_tailNotRunning env s h
  rw [Bool.not_eq_true] at h12
  by_cases h13 : "OBJEXEC:".data.isPrefixOf arg = true
  · rw [processData_objexec env connid arg s h1 h2 h3 h4 h5 h6 h7 h8 h9 h10 h11 h12 h13]
    exact cdts_tailNotRunning env s h
  rw [Bool.not_eq_true] at h13
  rw [processData_unknown env connid arg s h1 h2 h3 h4 h5 h6 h7 h8 h9 h10 h11 h12 h13]
  exact cdts_tailNotRunning env s h


theorem step_tailNotRunning (s : TCanvasPainter) (i : PInput)
    (h : tailNotRunning s.fCmds) : tailNotRunning (step s i).1.fCmds := by
  cases i with
  | msg env connid arg => exact processData_tailNotRunning env connid arg s h
  | update env ver async hasCb =>
      simp only [step, CanvasUpdated]
      split_ifs <;>
        first
        | exact h
        | (dsimp only
           rw [createSnapshot_fCmds]
           exact h)
        | (dsimp only
           refine cdts_tailNotRunning env _ ?_
           dsimp only
           rw [createSnapshot_fCmds]
           exact h)
  | command env name arg async hasCb =>
      simp only [step, DoWhenReady]
      split_ifs <;>
        first
        | exact h
        | (dsimp only
           refine cdts_tailNotRunning env _ ?_
           dsimp only
           exact tailNotRunning_append s.fCmds _ h rfl)
  | panel env =>
      simp only [step, AddPanel, DoWhenReady]
      split_ifs <;>
        first
        | exact h
        | (dsimp only
           refine cdts_tailNotRunning env _ ?_
           dsimp only
           exact tailNotRunning_append s.fCmds _ h rfl)
  | display => exact h
  | destroy =>
      simp only [step, DestroyPainter, CancelUpdates]
      rw [cancel_all_empty]
      intro c hc
      simp at hc

theorem run_tailNotRunning (s : TCanvasPainter) (l : List PInput)
    (h : tailNotRunning s.fCmds) : tailNotRunning (run s l).1.fCmds := by
  induction l generalizing s with
  | nil => simpa [run] using h
  | cons i is ih =>
      simp only [run]
      exact ih (step s i).1 (step_tailNotRunning s i h)

theorem cdts_had (env : Env) (s : TCanvasPainter) :
    (CheckDataToSend env s).1.fHadWebConn = s.fHadWebConn := by
  simp only [CheckDataToSend, CancelUpdates]
  split_ifs <;> rfl

theorem createSnapshot_had (env : Env) (s : TCanvasPainter) :
    (CreateSnapshot env s).1.fHadWebConn = s.fHadWebConn := by
  simp only [CreateSnapshot]
  split_ifs <;> rfl

theorem fcr_had (reply : Str) (s : TCanvasPainter) :
    (FrontCommandReplied reply s).1.fHadWebConn = s.fHadWebConn := by
  rcases h : s.fCmds with _ | ⟨c, cs⟩ <;> simp [FrontCommandReplied, h]

theorem processData_had (env : Env) (connid : Nat) (arg : Str) (s : TCanvasPainter)
    (h : s.fHadWebConn = true) :
    (ProcessData env connid arg s).1.fHadWebConn = true := by
  by_cases h1 : arg = "CONN_READY".data
  · rw [processData_connReady env connid arg s h1, cdts_had]
  by_cases h2 : (s.fWebConn.find? (fun c => c.fConnId == connid)).isNone = true
  · rw [processData_noConn env connid arg s h1 h2]
    exact h
  rw [Bool.not_eq_true] at h2
  by_cases h3 : arg = "CONN_CLOSED".data
  · rw [processData_connClosed env connid arg s h1 h2 h3]
    dsimp only
    rw [cdts_had]
    exact h
  by_cases h4 : "READY".data.isPrefixOf arg = true
  · rw [processData_ready env connid arg s h1 h2 h3 h4, cdts_had]
    exact h
  rw [Bool.not_eq_true] at h4
  by_cases h5 : "SNAPDONE:".data.isPrefixOf arg = true
  · rw [processData_snapdone env connid arg s h1 h2 h3 h4 h5, cdts_had]
    exact h
  rw [Bool.not_eq_true] at h5
  by_cases h6 : "RREADY:".data.isPrefixOf arg = true
  · rw [processData_rready env connid arg s h1 h2 h3 h4 h5 h6, cdts_had]
    exact h
  rw [Bool.not_eq_true] at h6
  by_cases h7 : "GETMENU:".data.isPrefixOf arg = true
  · rw [processData_getmenu env connid arg s h1 h2 h3 h4 h5 h6 h7, cdts_had]
    exact h
  rw [Bool.not_eq_true] at h7
  by_cases h8 : arg = "QUIT".data
  · rw [processData_quit env connid arg s h1 h2 h3 h4 h5 h6 h7 h8]
    exact h
  by_cases h9 : arg = "RELOAD".data
  · rw [processData_reload env connid arg s h1 h2 h3 h4 h5 h6 h7 h8 h9, cdts_had]
    exact h
  by_cases h10 : arg = "INTERRUPT".data
  · rw [processData_interrupt env connid arg s h1 h2 h3 h4 h5 h6 h7 h8 h9 h10]
    dsimp only
    rw [cdts_had]
    exact h
  by_cases h11 : "REPLY:".data.isPrefixOf arg = true
  · rcases hcs : s.fCmds with _ | ⟨cmd, rest⟩
    · rw [processData_replyEmpty env connid arg s h1 h2 h3 h4 h5 h6 h7 h8 h9 h10 h11 hcs]
      dsimp only
      rw [cdts_had]
      exact h
    · by_cases hrun : cmd.fRunning = true
      · by_cases hid : cmd.fId =
            (match splitColon (arg.drop 6) with | some p => p.1 | none => [])
        · rw [processData_replyValid env connid arg s cmd rest h1 h2 h3 h4 h5 h6 h7 h8
            h9 h10 h11 hcs hrun hid]
          dsimp only
          rw [cdts_had, fcr_had]
          exact h
        · rw [processData_replyMismatch env connid arg s cmd rest h1 h2 h3 h4 h5 h6 h7
            h8 h9 h10 h11 hcs hrun hid]
          dsimp only
          rw [cdts_had]
          exact h
      · rw [Bool.not_eq_true] at hrun
        rw [processData_replyNotRunning env connid arg s cmd rest h1 h2 h3 h4 h5 h6 h7
          h8 h9 h10 h11 hcs hrun]
        dsimp only
        rw [cdts_had]
        exact h
  rw [Bool.not_eq_true] at h11
  by_cases h12 : "SAVE:".data.isPrefixOf arg = true
  · rw [processData_save env connid arg s h1 h2 h3 h4 h5 h6 h7 h8 h9 h10 h11 h12]
    dsimp only
    rw [cdts_had]
    exact h
  rw [Bool.not_eq_true] at h12
  by_cases h13 : "OBJEXEC:".data.isPrefixOf arg = true
  · rw [processData_objexec env connid arg s h1 h2 h3 h4 h5 h6 h7 h8 h9 h10 h11 h12 h13]
    dsimp only
    rw [cdts_had]
    exact h
  rw [Bool.not_eq_true] at h13
  rw [processData_unknown env connid arg s h1 h2 h3 h4 h5 h6 h7 h8 h9 h10 h11 h12 h13]
  dsimp only
  rw [cdts_had]
  exact h

theorem step_had (s : TCanvasPainter) (i : PInput) (h : s.fHadWebConn = true) :
    (step s i).1.fHadWebConn = true := by
  cases i with
  | msg env connid arg => exact processData_had env connid arg s h
  | update env ver async hasCb =>
      simp only [step, CanvasUpdated]
      split_ifs <;>
        first
        | exact h
        | (dsimp only
           rw [createSnapshot_had]
           exact h)
        | (dsimp only
           rw [cdts_had]
           dsimp only
           rw [createSnapshot_had]
           exact h)
  | command env name arg async hasCb =>
      simp only [step, DoWhenReady]
      split_ifs <;>
        first
        | exact h
        | (dsimp only
           rw [cdts_had]
           exact h)
  | panel env =>
      simp only [step, AddPanel, DoWhenReady]
      split_ifs <;>
        first
        | exact h
        | (dsimp only
           rw [cdts_had]
           exact h)
  | display => exact h
  | destroy => exact h

theorem createSnapshot_conns (env : Env) (s : TCanvasPainter) :
    (CreateSnapshot env s).1.fWebConn = s.fWebConn := by
  simp only [CreateSnapshot]
  split_ifs <;> rfl

theorem createSnapshot_delivered (env : Env) (s : TCanvasPainter) :
    (CreateSnapshot env s).1.fSnapshotDelivered = s.fSnapshotDelivered := by
  simp only [CreateSnapshot]
  split_ifs <;> rfl

theorem cdts_conns_nil (env : Env) (s : TCanvasPainter)
    (h1 : s.fWebConn = []) (h2 : s.fSnapshotDelivered = 0) :
    (CheckDataToSend env s).1.fWebConn = [] ∧
    (CheckDataToSend env s).1.fSnapshotDelivered = 0 := by
  rw [cdts_no_conns env s h1 h2]
  exact ⟨h1, h2⟩

theorem NV_of_fields (s : TCanvasPainter) (h1 : s.fWebConn = [])
    (h2 : s.fSnapshotDelivered = 0) : NoViewerYet s :=
  fun _ => ⟨h1, h2⟩

theorem step_NV (s : TCanvasPainter) (i : PInput) (hnv : NoViewerYet s) :
    NoViewerYet (step s i).1 := by
  by_cases hhad : s.fHadWebConn = true
  · intro hh
    rw [step_had s i hhad] at hh
    simp at hh
  · rw [Bool.not_eq_true] at hhad
    obtain ⟨hconns, hdel⟩ := hnv hhad
    cases i with
    | msg env connid arg =>
        by_cases h1 : arg = "CONN_READY".data
        · rw [step, processData_connReady env connid arg s h1]
          intro hh
          rw [cdts_had] at hh
          simp at hh
        · have h2 : (s.fWebConn.find? (fun c => c.fConnId == connid)).isNone = true := by
            rw [hconns]
            rfl
          rw [step, processData_noConn env connid arg s h1 h2]
          exact hnv
    | update env ver async hasCb =>
        simp only [step, CanvasUpdated]
        have hs1c : ({ (CreateSnapshot env s).1 with fSnapshotVersion := ver, fSnapshot := (CreateSnapshot env s).2.1 } : TCanvasPainter).fWebConn = [] := by
          dsimp only
          rw [createSnapshot_conns]
          exact hconns
        have hs1d : ({ (CreateSnapshot env s).1 with fSnapshotVersion := ver, fSnapshot := (CreateSnapshot env s).2.1 } : TCanvasPainter).fSnapshotDelivered = 0 := by
          dsimp only
          rw [createSnapshot_delivered]
          exact hdel
        have hc := cdts_conns_nil env _ hs1c hs1d
        split_ifs <;>
          first
          | exact hnv
          | (intro hh
             exact ⟨hs1c, hs1d⟩)
          | (intro hh
             exact ⟨hc.1, hc.2⟩)
    | command env name arg async hasCb =>
        simp only [step, DoWhenReady]
        split_ifs <;>
          first
          | exact NV_of_fields _ hconns hdel
          | (refine NV_of_fields _ ?_ ?_ <;> dsimp only
             · refine (cdts_conns_nil env _ ?_ ?_).1 <;> first | exact hconns | exact hdel
             · refine (cdts_conns_nil env _ ?_ ?_).2 <;> first | exact hconns | exact hdel)
    | panel env =>
        simp only [step, AddPanel, DoWhenReady]
        split_ifs <;>
          first
          | exact NV_of_fields _ hconns hdel
          | (refine NV_of_fields _ ?_ ?_ <;> dsimp only
             · refine (cdts_conns_nil env _ ?_ ?_).1 <;> first | exact hconns | exact hdel
             · refine (cdts_conns_nil env _ ?_ ?_).2 <;> first | exact hconns | exact hdel)
    | display => exact NV_of_fields _ hconns hdel
    | destroy => exact NV_of_fields _ hconns rfl

theorem run_NV (s : TCanvasPainter) (l : List PInput) (hnv : NoViewerYet s) :
    NoViewerYet (run s l).1 := by
  induction l generalizing s with
  | nil => simpa [run] using hnv
  | cons i is ih =>
      simp only [run]
      exact ih (step s i).1 (step_NV s i hnv)

theorem run_append (s : TCanvasPainter) (l1 l2 : List PInput) :
    run s (l1 ++ l2) =
      ((run (run s l1).1 l2).1, (run s l1).2 ++ (run (run s l1).1 l2).2) := by
  induction l1 generalizing s with
  | nil => simp [run]
  | cons i is ih =>
      rw [List.cons_append]
      simp only [run]
      rw [ih]
      simp [List.append_assoc]

theorem createSnapshot_fWindow (env : Env) (s : TCanvasPainter) :
    (CreateSnapshot env s).1.fWindow = s.fWindow := by
  simp only [CreateSnapshot]
  split_ifs <;> rfl

theorem createSnapshot_shape (env : Env) (s : TCanvasPainter) :
    ∀ e ∈ (CreateSnapshot env s).2.2, ∃ p, e = Ev.jsonDump p := by
  simp only [CreateSnapshot]
  split_ifs <;> simp

/-- Claim C1 (refuted by the code; the code contradicts its own field
documentation, see RESULTS): after two viewers connect and acknowledge
versions 3 and 2 respectively, the recomputation of fSnapshotDelivered
by the push pass reports 3, not min(3,2) = 2 — the accumulator at line
272 of the source updates on min_delivered < conn.fDelivered, computing
the maximum of the non-zero acknowledged versions instead of the
minimum that both the spec and the declaration comment of
fSnapshotDelivered (minimal version delivered to all connections)
require. -/
theorem c1_delivered_version_bug :
    (run pInit c1Inputs).1.fWebConn.map (fun c => c.fDelivered) = [3, 2] ∧
    (run pInit c1Inputs).1.fSnapshotDelivered = 3 := by decide

/-- Claim C2: over every input sequence driving the engine from its
initial state (command submissions through DoWhenReady and AddPanel,
push passes, inbound replies, cancellations), at most one queued
command has fRunning = true at any time, and every command behind the
queue head is not running — so a running command is always the head. -/
theorem c2_single_flight (l : List PInput) :
    ((run pInit l).1.fCmds.filter (fun c => c.fRunning)).length ≤ 1 ∧
    (∀ c ∈ (run pInit l).1.fCmds.drop 1, c.fRunning = false) := by
  have h := run_tailNotRunning pInit l (by intro c hc; simp [pInit] at hc)
  refine ⟨?_, h⟩
  rcases hcs : (run pInit l).1.fCmds with _ | ⟨c0, rest⟩
  · simp
  · rw [hcs] at h
    have hrest : ∀ c ∈ rest, c.fRunning = false := fun c hc => h c (by simpa using hc)
    have hre : rest.filter (fun c => c.fRunning) = [] := by
      rw [List.filter_eq_nil_iff]
      intro a ha
      simp [hrest a ha]
    by_cases hc0 : c0.fRunning = true <;> simp [List.filter_cons, hc0, hre]

/-- Claim C3: an update request CanvasUpdated(ver, async, callback)
with ver non-zero and not above the delivered-to-all version returns
immediately: the callback (when present) fires synchronously with
success and the state — in particular the stored snapshot and the
snapshot version — is completely unchanged. -/
theorem c3_noop_fast_path (env : Env) (ver : Nat) (async hasCb : Bool)
    (s : TCanvasPainter) (h1 : ver ≠ 0) (h2 : ver ≤ s.fSnapshotDelivered) :
    CanvasUpdated env ver async hasCb s = (s, if hasCb then [Ev.reqCb true] else []) := by
  have h3 : s.fSnapshotDelivered ≠ 0 := by omega
  unfold CanvasUpdated
  rw [if_pos ⟨h1, h3, h2⟩]

/-- Witness for claim C3 at a concrete state with delivered version 3. -/
theorem c3_noop_fast_path_witness :
    CanvasUpdated envSend 2 false true c3State = (c3State, [Ev.reqCb true]) :=
  c3_noop_fast_path envSend 2 false true c3State (by decide) (by decide)

/-- Claim C10: any inbound message other than CONN_READY whose sending
connection id has no record in the connection registry makes
ProcessData return immediately: the state is untouched and no event at
all (no send, no callback, no log, no push pass output) is produced. -/
theorem c10_unknown_conn_noop (env : Env) (connid : Nat) (arg : Str) (s : TCanvasPainter)
    (h1 : arg ≠ "CONN_READY".data)
    (h2 : s.fWebConn.find? (fun c => c.fConnId == connid) = none) :
    ProcessData env connid arg s = (s, []) := by
  unfold ProcessData
  rw [if_neg h1, h2]
  rfl

/-- Witness for claim C10: a RELOAD from an unknown connection id. -/
theorem c10_unknown_conn_noop_witness :
    ProcessData envSend 5 "RELOAD".data pInit = (pInit, []) :=
  c10_unknown_conn_noop envSend 5 "RELOAD".data pInit (by decide) rfl

/-- Claim C9: when the head command's reply is processed by
FrontCommandReplied, the head is popped and its finished record is
marked ready; for the image-export verbs SVG, PNG and JPEG the result
is success iff the reply body is non-empty, in which case the
base64-decoded body is written to the command's argument path; for the
panel-attach verb the result is success iff the body is the literal
token true; and the callback (when armed) is invoked with that boolean
result. -/
theorem c9_front_reply (reply : Str) (s : TCanvasPainter) (cmd : WebCommand)
    (rest : List WebCommand) (h : s.fCmds = cmd :: rest) :
    (FrontCommandReplied reply s).1 = { s with fCmds := rest } ∧
    Ev.cmdDone { cmd with fReady := true, fResult := (ReplyDecode cmd reply).1, fCallback := false } ∈ (FrontCommandReplied reply s).2 ∧
    (cmd.fCallback = true →
      Ev.cmdCb cmd.fId (ReplyDecode cmd reply).1 ∈ (FrontCommandReplied reply s).2) ∧
    (ImageVerb cmd.fName = true →
      ((ReplyDecode cmd reply).1 = true ↔ reply ≠ []) ∧
      (reply ≠ [] → Ev.fileWrite cmd.fArg reply ∈ (FrontCommandReplied reply s).2)) ∧
    (ImageVerb cmd.fName = false → "ADDPANEL:".data.isPrefixOf cmd.fName = true →
      ((ReplyDecode cmd reply).1 = true ↔ reply = "true".data)) := by
  refine ⟨?_, ?_, fun hcb => ?_, fun hiv => ⟨?_, fun hr => ?_⟩, fun hiv hap => ?_⟩
  · simp [FrontCommandReplied, h]
  · simp [FrontCommandReplied, h]
  · simp [FrontCommandReplied, h, hcb]
  · simp only [ReplyDecode, hiv, if_true]
    by_cases hr : reply = [] <;> simp [hr]
  · simp [FrontCommandReplied, h, ReplyDecode, hiv, hr]
  · simp only [ReplyDecode, hiv, hap]
    simp [beq_iff_eq]

/-- Witness for claim C9: a PNG reply with a non-empty base64 body. -/
theorem c9_front_reply_witness :
    (FrontCommandReplied "QUJD".data c9State).1 = { c9State with fCmds := [] } ∧
    (ReplyDecode c9Cmd "QUJD".data).1 = true ∧
    Ev.fileWrite "out.png".data "QUJD".data ∈ (FrontCommandReplied "QUJD".data c9State).2 := by
  have h := c9_front_reply "QUJD".data c9State c9Cmd [] rfl
  exact ⟨h.1, by decide, (h.2.2.2.1 (by decide)).2 (by decide)⟩

/-- Claim C4 counterexample: in a reachable state whose queued SVG
command is not running, processing the message REPLY:7:zzz logs the
front-command-not-running error, yet the command queue does not stay
entirely unchanged — the push pass that concludes every message
dispatch sends the queued command to the draw-ready connection and
flips its running flag from false to true. -/
theorem c4_reply_counterexample :
    (run pInit c4Prefix).1.fCmds.map (fun c => c.fRunning) = [false] ∧
    (ProcessData envSendBatch1 1 "REPLY:7:zzz".data (run pInit c4Prefix).1).2.head? =
      some (Ev.errorMsg "Front command is not running when get reply".data) ∧
    (ProcessData envSendBatch1 1 "REPLY:7:zzz".data (run pInit c4Prefix).1).1.fCmds.map
      (fun c => c.fRunning) = [true] := by decide

/-- Claim C4 amended: processing a REPLY message when the command
queue is empty, or the head is not running, or the embedded id differs
from the head's id, logs an error and applies no reply effect: the
dispatch is exactly an error log followed by an ordinary push pass over
the unchanged state, no command is popped (the queue length is
preserved) and no command callback fires; the concluding push pass may
still, as after any message, dispatch a not-running head command. -/
theorem c4_reply_validation_amended (env : Env) (connid : Nat) (cdata : Str)
    (s : TCanvasPainter)
    (hconn : (s.fWebConn.find? (fun c => c.fConnId == connid)).isNone = false)
    (herr : s.fCmds = [] ∨ ∃ cmd rest, s.fCmds = cmd :: rest ∧
      (cmd.fRunning = false ∨ (cmd.fRunning = true ∧ cmd.fId ≠
        (match splitColon cdata with | some p => p.1 | none => [])))) :
    ∃ m : Str,
      ProcessData env connid ("REPLY:".data ++ cdata) s =
        ((CheckDataToSend env s).1, Ev.errorMsg m :: (CheckDataToSend env s).2) ∧
      (ProcessData env connid ("REPLY:".data ++ cdata) s).1.fCmds.length =
        s.fCmds.length ∧
      (∀ id, cmdCbCount id (ProcessData env connid ("REPLY:".data ++ cdata) s).2 = 0) := by
  have ht : List.take 6 ("REPLY:".data ++ cdata) = "REPLY:".data := rfl
  have e1 : ("REPLY:".data ++ cdata) ≠ "CONN_READY".data := fun hx => by
    have h6 := congrArg (List.take 6) hx
    rw [ht] at h6
    exact absurd h6 (by decide)
  have e3 : ("REPLY:".data ++ cdata) ≠ "CONN_CLOSED".data := fun hx => by
    have h6 := congrArg (List.take 6) hx
    rw [ht] at h6
    exact absurd h6 (by decide)
  have e4 : "READY".data.isPrefixOf ("REPLY:".data ++ cdata) = false := rfl
  have e5 : "SNAPDONE:".data.isPrefixOf ("REPLY:".data ++ cdata) = false := rfl
  have e6 : "RREADY:".data.isPrefixOf ("REPLY:".data ++ cdata) = false := rfl
  have e7 : "GETMENU:".data.isPrefixOf ("REPLY:".data ++ cdata) = false := rfl
  have e8 : ("REPLY:".data ++ cdata) ≠ "QUIT".data := fun hx => by
    have h6 := congrArg (List.take 6) hx
    rw [ht] at h6
    exact absurd h6 (by decide)
  have e9 : ("REPLY:".data ++ cdata) ≠ "RELOAD".data := fun hx => by
    have h6 := congrArg (List.take 6) hx
    rw [ht] at h6
    exact absurd h6 (by decide)
  have e10 : ("REPLY:".data ++ cdata) ≠ "INTERRUPT".data := fun hx => by
    have h6 := congrArg (List.take 6) hx
    rw [ht] at h6
    exact absurd h6 (by decide)
  have e11 : "REPLY:".data.isPrefixOf ("REPLY:".data ++ cdata) = true :=
    List.isPrefixOf_iff_prefix.mpr (List.prefix_append _ _)
  rcases herr with hcs | ⟨cmd, rest, hcs, hview⟩
  · refine ⟨"Get REPLY without command".data, ?_, ?_, ?_⟩ <;>
      rw [processData_replyEmpty env connid _ s e1 hconn e3 e4 e5 e6 e7 e8 e9 e10 e11 hcs]
    · exact cdts_cmds_length env s
    · intro id
      simp [cmdCbCount, cdts_no_cmdCb]
  · rcases hview with hrun | ⟨hrun, hne⟩
    · refine ⟨"Front command is not running when get reply".data, ?_, ?_, ?_⟩ <;>
        rw [processData_replyNotRunning env connid _ s cmd rest e1 hconn e3 e4 e5 e6 e7
          e8 e9 e10 e11 hcs hrun]
      · exact cdts_cmds_length env s
      · intro id
        simp [cmdCbCount, cdts_no_cmdCb]
    · have hne' : cmd.fId ≠
          (match splitColon (("REPLY:".data ++ cdata).drop 6) with
            | some p => p.1 | none => []) := hne
      refine ⟨"Mismatch with front command and ID in REPLY".data, ?_, ?_, ?_⟩ <;>
        rw [processData_replyMismatch env connid _ s cmd rest e1 hconn e3 e4 e5 e6 e7
          e8 e9 e10 e11 hcs hrun hne']
      · exact cdts_cmds_length env s
      · intro id
        simp [cmdCbCount, cdts_no_cmdCb]

/-- Witness for the amended claim C4 at the c4Prefix state. -/
theorem c4_reply_validation_amended_witness :
    ∃ m : Str,
      ProcessData envSendBatch1 1 ("REPLY:".data ++ "7:zzz".data) (run pInit c4Prefix).1 =
        ((CheckDataToSend envSendBatch1 (run pInit c4Prefix).1).1,
         Ev.errorMsg m :: (CheckDataToSend envSendBatch1 (run pInit c4Prefix).1).2) ∧
      (ProcessData envSendBatch1 1 ("REPLY:".data ++ "7:zzz".data)
        (run pInit c4Prefix).1).1.fCmds.length = (run pInit c4Prefix).1.fCmds.length ∧
      (∀ id, cmdCbCount id (ProcessData envSendBatch1 1 ("REPLY:".data ++ "7:zzz".data)
        (run pInit c4Prefix).1).2 = 0) :=
  c4_reply_validation_amended envSendBatch1 1 "7:zzz".data (run pInit c4Prefix).1
    (by decide) (Or.inr ⟨c4Cmd, [], by decide, Or.inl (by decide)⟩)

/-- Claim C6 (refuted by the code; the code contradicts its own
comment, see RESULTS): a viewer connects, an update with a callback is
submitted, nothing is ever acknowledged, and the only viewer
disconnects; although viewers existed before and none remain, the
pending update is not force-completed — it stays queued and its
callback never fires, because the cancellation at line 327 of the
source is guarded by fSnapshotDelivered being non-zero instead of the
sticky had-connection flag. -/
theorem c6_total_disconnect_bug :
    (run pInit c6Inputs).1.fHadWebConn = true ∧
    (run pInit c6Inputs).1.fWebConn = [] ∧
    (run pInit c6Inputs).1.fUpdatesLst = [⟨0, 1, true⟩] ∧
    updCbCount 0 (run pInit c6Inputs).2 = 0 := by decide

/-- Claim C7 counterexample: a connection with a pending menu request
for a drawable id absent from the canvas, visited by a push pass whose
channel accepts data, receives no payload at all — the claim's priority
item (2) promises a menu payload whenever a menu request is pending,
but the code only produces one when the drawable is found (it still
clears the pending marker, and does not fall through to the snapshot
branch). -/
theorem c7_menu_counterexample :
    (run pInit c7Prefix).1.fWebConn.map (fun c => c.fGetMenu) = ["x".data] ∧
    envSendBatch1.canSend 1 = true ∧
    (ProcessData envSendBatch1 1 "READY".data (run pInit c7Prefix).1).2 = [] ∧
    (ProcessData envSendBatch1 1 "READY".data (run pInit c7Prefix).1).1.fWebConn.map
      (fun c => c.fGetMenu) = [[]] := by decide

/-- Concatenating connection lists splits the push loop: the pass over
a ++ b visits a first, then b starting from the command queue and the
delivered-version accumulator that a left behind, the produced
connections and events concatenating in order. -/
theorem pushLoop_append (env : Env) (sv : Nat) (sn : Str) (a b : List WebConn)
    (cmds : List WebCommand) (minDel : Nat) :
    PushLoop env sv sn (a ++ b) cmds minDel =
      ((PushLoop env sv sn a cmds minDel).1 ++
        (PushLoop env sv sn b (PushLoop env sv sn a cmds minDel).2.1
          (PushLoop env sv sn a cmds minDel).2.2.1).1,
       (PushLoop env sv sn b (PushLoop env sv sn a cmds minDel).2.1
          (PushLoop env sv sn a cmds minDel).2.2.1).2.1,
       (PushLoop env sv sn b (PushLoop env sv sn a cmds minDel).2.1
          (PushLoop env sv sn a cmds minDel).2.2.1).2.2.1,
       (PushLoop env sv sn a cmds minDel).2.2.2 ++
        (PushLoop env sv sn b (PushLoop env sv sn a cmds minDel).2.1
          (PushLoop env sv sn a cmds minDel).2.2.1).2.2.2) := by
  induction a generalizing cmds minDel with
  | nil => simp [PushLoop]
  | cons c t ih =>
      rw [List.cons_append]
      simp only [PushLoop]
      rw [ih]
      simp [List.append_assoc]

/-- Claim C7 amended: on every push pass the live connections are
visited in insertion order, each visit threading the shared command
queue and the delivered-version accumulator to the next and
contributing its events in order (the pass factors through any chosen
visit).  A connection whose channel cannot accept more data is skipped
entirely — connection and queue unchanged, no payload; otherwise at
most one payload is produced for it, by strict priority: (1) a command
payload if the connection is draw-ready and the queue head is eligible
(present, not already running, targeted at connection 0 or at this
very connection), the head being marked running and bound to this
connection; else (2) a pending menu request is cleared, and a menu
payload is produced exactly when the requested drawable is found in
the canvas (a missing drawable clears the request without producing
any payload and without falling through to the snapshot branch); else
(3) if the sent version differs from the snapshot version, the
snapshot payload is produced and the sent version updated; else
nothing is sent. -/
theorem c7_push_priority_amended (env : Env) (snapVer : Nat) (snap : Str)
    (conns pre post : List WebConn) (conn : WebConn)
    (cmds cs : List WebCommand) (minDel md : Nat)
    (v : WebConn × List WebCommand × Nat × Option Str)
    (hsplit : conns = pre ++ conn :: post)
    (hcs : cs = (PushLoop env snapVer snap pre cmds minDel).2.1)
    (hmd : md = (PushLoop env snapVer snap pre cmds minDel).2.2.1)
    (hv : v = VisitConn env snapVer snap conn cs md) :
    (PushLoop env snapVer snap conns cmds minDel).1 =
      (PushLoop env snapVer snap pre cmds minDel).1 ++ v.1 ::
        (PushLoop env snapVer snap post v.2.1 v.2.2.1).1 ∧
    (PushLoop env snapVer snap conns cmds minDel).2.1 =
      (PushLoop env snapVer snap post v.2.1 v.2.2.1).2.1 ∧
    (PushLoop env snapVer snap conns cmds minDel).2.2.1 =
      (PushLoop env snapVer snap post v.2.1 v.2.2.1).2.2.1 ∧
    (PushLoop env snapVer snap conns cmds minDel).2.2.2 =
      (PushLoop env snapVer snap pre cmds minDel).2.2.2 ++
      (match v.2.2.2 with
        | some b => [Ev.send conn.fConnId b]
        | none => []) ++
      (PushLoop env snapVer snap post v.2.1 v.2.2.1).2.2.2 ∧
    (env.canSend conn.fConnId = false →
      v.1 = conn ∧ v.2.1 = cs ∧ v.2.2.2 = none) ∧
    (env.canSend conn.fConnId = true →
      ((conn.fDrawReady && HeadEligible conn cs) = true →
        ∃ c rest, cs = c :: rest ∧ v.1 = conn ∧
          v.2.1 = { c with fRunning := true, fConnId := conn.fConnId } :: rest ∧
          v.2.2.2 = some (CmdPayload c)) ∧
      ((conn.fDrawReady && HeadEligible conn cs) = false →
        v.2.1 = cs ∧
        (conn.fGetMenu ≠ [] →
          v.1 = { conn with fGetMenu := [] } ∧
          v.2.2.2 =
            (if FindDrawable env.drawables conn.fGetMenu then
              some (MenuPayload conn.fGetMenu env.menuJson) else none)) ∧
        (conn.fGetMenu = [] → conn.fSend ≠ snapVer →
          v.1 = { conn with fSend := snapVer } ∧
          v.2.2.2 = some (SnapPayload snapVer snap)) ∧
        (conn.fGetMenu = [] → conn.fSend = snapVer →
          v.1 = conn ∧ v.2.2.2 = none))) := by
  subst hcs hmd hv hsplit
  refine ⟨?_, ?_, ?_, ?_, fun hno => ?_, fun hyes => ⟨fun hcmd => ?_, fun hncmd => ?_⟩⟩
  · rw [pushLoop_append]
    simp only [PushLoop]
  · rw [pushLoop_append]
    simp only [PushLoop]
  · rw [pushLoop_append]
    simp only [PushLoop]
  · rw [pushLoop_append]
    simp only [PushLoop]
    rw [List.append_assoc]
  · refine ⟨?_, ?_, ?_⟩ <;> simp [VisitConn, hno]
  · cases hcseq : (PushLoop env snapVer snap pre cmds minDel).2.1 with
    | nil => rw [hcseq] at hcmd; simp [HeadEligible] at hcmd
    | cons c rest =>
        rw [hcseq] at hcmd
        refine ⟨c, rest, rfl, ?_, ?_, ?_⟩ <;> simp [VisitConn, hyes, hcmd]
  · refine ⟨?_, fun hmenu => ?_, fun hmenu hsend => ?_, fun hmenu hsend => ?_⟩
    · simp only [VisitConn, hyes, hncmd]
      split_ifs <;> simp_all
    · refine ⟨?_, ?_⟩ <;> simp [VisitConn, hyes, hncmd, hmenu]
    · refine ⟨?_, ?_⟩ <;> simp [VisitConn, hyes, hncmd, hmenu, hsend]
    · refine ⟨?_, ?_⟩ <;> simp [VisitConn, hyes, hncmd, hmenu, hsend]

/-- Witness for the amended claim C7: a one-connection pass with a
pending menu request for a missing drawable. -/
theorem c7_push_priority_amended_witness :
    (VisitConn envSendBatch1 5 "S".data c7Conn [] 0).1 = ⟨1, false, [], 0, 0⟩ ∧
    (VisitConn envSendBatch1 5 "S".data c7Conn [] 0).2.2.2 = none ∧
    (PushLoop envSendBatch1 5 "S".data [c7Conn] [] 0).2.2.2 = [] := by
  have h := c7_push_priority_amended envSendBatch1 5 "S".data [c7Conn] [] [] c7Conn
    [] [] 0 0 (VisitConn envSendBatch1 5 "S".data c7Conn [] 0) rfl rfl rfl rfl
  have hm := ((h.2.2.2.2.2 (by decide)).2 (by decide)).2.1 (by decide)
  refine ⟨hm.1, ?_, ?_⟩
  · rw [hm.2]
    decide
  · rw [h.2.2.2.1]
    decide

/-- Claim C8: if an update with a callback is submitted while no
viewer has ever connected (hence there are no connections and nothing
was ever delivered), and the channel layer confirms that no viewer is
reachable (no window, or the window is not shown), the callback fires
synchronously with failure — never with success — and no pending
update is left behind to hang. -/
theorem c8_no_viewer_failure (l : List PInput) (env : Env) (ver : Nat) (async : Bool)
    (h1 : (run pInit l).1.fHadWebConn = false)
    (h2 : (run pInit l).1.fWindow = false ∨ env.shown = false) :
    Ev.reqCb false ∈ (CanvasUpdated env ver async true (run pInit l).1).2 ∧
    (∀ e ∈ (CanvasUpdated env ver async true (run pInit l).1).2, e ≠ Ev.reqCb true) ∧
    (CanvasUpdated env ver async true (run pInit l).1).1.fUpdatesLst =
      (run pInit l).1.fUpdatesLst := by
  have hnv := run_NV pInit l (fun _ => ⟨rfl, rfl⟩)
  obtain ⟨hconns, hdel⟩ := hnv h1
  have hfast : ¬(ver ≠ 0 ∧ (run pInit l).1.fSnapshotDelivered ≠ 0 ∧
      ver ≤ (run pInit l).1.fSnapshotDelivered) := by
    rw [hdel]
    rintro ⟨-, hne, -⟩
    exact hne rfl
  have hwin : ((!({ (CreateSnapshot env (run pInit l).1).1 with fSnapshotVersion := ver, fSnapshot := (CreateSnapshot env (run pInit l).1).2.1 } : TCanvasPainter).fWindow) || !env.shown) = true := by
    dsimp only
    rw [createSnapshot_fWindow]
    rcases h2 with h2 | h2 <;> simp [h2]
  simp only [CanvasUpdated]
  rw [if_neg hfast, if_pos hwin]
  refine ⟨?_, ?_, ?_⟩
  · dsimp only
    refine List.mem_append.mpr (Or.inr ?_)
    simp
  · intro e he
    rcases List.mem_append.mp he with he | he
    · obtain ⟨p, rfl⟩ := createSnapshot_shape env (run pInit l).1 e he
      simp
    · simp at he
      subst he
      simp
  · dsimp only
    rw [createSnapshot_fUpdates]

/-- Witness for claim C8: update version 5 with a hidden window. -/
theorem c8_no_viewer_failure_witness :
    Ev.reqCb false ∈ (CanvasUpdated envHidden 5 false true (run pInit []).1).2 ∧
    (∀ e ∈ (CanvasUpdated envHidden 5 false true (run pInit []).1).2,
      e ≠ Ev.reqCb true) ∧
    (CanvasUpdated envHidden 5 false true (run pInit []).1).1.fUpdatesLst =
      (run pInit []).1.fUpdatesLst :=
  c8_no_viewer_failure [] envHidden 5 false rfl (Or.inr rfl)

/-- Claim C5: callbacks fire exactly once.  Over any execution from
the initial state, per command id, the number of command-callback
firings never exceeds the number of armed command creations (never
twice), and for updates likewise per ghost identity; and when the
execution ends with painter teardown, the counts are exactly equal
(never zero): every armed command callback and every pending-update
callback has fired exactly once across the reply, cancellation,
disconnect and teardown paths. -/
theorem c5_callback_exactly_once (l : List PInput) :
    (∀ id : Str, cmdCbCount id (run pInit l).2 ≤ cmdNewCount id (run pInit l).2) ∧
    (∀ k : Nat, updCbCount k (run pInit l).2 ≤ updNewCount k (run pInit l).2) ∧
    (∀ id : Str, cmdNewCount id (run pInit (l ++ [PInput.destroy])).2 =
      cmdCbCount id (run pInit (l ++ [PInput.destroy])).2) ∧
    (∀ k : Nat, updNewCount k (run pInit (l ++ [PInput.destroy])).2 =
      updCbCount k (run pInit (l ++ [PInput.destroy])).2) := by
  have hinit : CbBalanced pInit [] :=
    ⟨fun id => by simp [cmdNewCount, cmdCbCount, liveCmd, pInit],
     fun k => by simp [updNewCount, updCbCount, liveUpd, pInit],
     by intro u hu; simp [pInit] at hu⟩
  have hb := run_balanced pInit [] l hinit
  rw [List.nil_append] at hb
  obtain ⟨hc, hu, -⟩ := hb
  have hbd := run_balanced pInit [] (l ++ [PInput.destroy]) hinit
  rw [List.nil_append] at hbd
  obtain ⟨hcd, hud, -⟩ := hbd
  have hfin : (run pInit (l ++ [PInput.destroy])).1.fCmds = [] ∧
      (run pInit (l ++ [PInput.destroy])).1.fUpdatesLst = [] := by
    rw [run_append]
    dsimp only
    simp [run, step, DestroyPainter, CancelUpdates, cancel_all_empty]
  refine ⟨fun id => ?_, fun k => ?_, fun id => ?_, fun k => ?_⟩
  · have h := hc id
    omega
  · have h := hu k
    omega
  · have h := hcd id
    rw [hfin.1] at h
    simp only [liveCmd] at h
    omega
  · have h := hud k
    rw [hfin.2] at h
    simp only [liveUpd] at h
    omega
